import Mathlib

set_option maxRecDepth 8000

/-!
Verification of `itus_data_udf/daily_data_udf.py` (Excel finance UDFs backed
by a SQLite file).  The module is shallowly embedded: Python strings are
`String`/`List Char`, the SQLite table is a list of records, pandas frames
are a column-name list plus rows of cells, the `lru_cache` memo is an
association list in most-recently-used-first order, and the rotating log is
a list of entries (newest first).  Wall-clock durations that appear in log
lines are not modelled; a log entry stands for the emitted line.
-/

namespace DailyData

/-! ### Python `str.strip` (section: `_validate_inputs` / date helpers)

`str.strip()` with no argument removes leading and trailing whitespace.
We model the ASCII whitespace characters recognised by `str.isspace`. -/

def isPySpace (c : Char) : Bool :=
  decide (c = ' ' ∨ c = '\t' ∨ c = '\n' ∨ c = '\r' ∨ c.toNat = 11 ∨ c.toNat = 12)

def pyStrip (l : List Char) : List Char :=
  ((l.dropWhile isPySpace).reverse.dropWhile isPySpace).reverse

/-! ### Digits -/

def dChar (n : Nat) : Char := Char.ofNat (48 + n)

def isDig (c : Char) : Bool := decide (48 ≤ c.toNat ∧ c.toNat ≤ 57)

def dVal (c : Char) : Nat := c.toNat - 48

/-! ### `datetime.strptime(s, "%Y-%m-%d")`

CPython compiles the format to the regex
`(?P<Y>\d\d\d\d)-(?P<m>1[0-2]|0[1-9]|[1-9])-(?P<d>3[01]|[12]\d|0[1-9]|[1-9])`,
requires the match to cover the whole string (no backtracking is driven by
that final length check), and then builds a `datetime`, which validates the
year (at least 1) and the day against the month length. -/

def isLeap (y : Nat) : Bool :=
  decide (y % 4 = 0 ∧ (¬ y % 100 = 0 ∨ y % 400 = 0))

def daysInMonth (y m : Nat) : Nat :=
  if m = 2 then (if isLeap y then 29 else 28)
  else if m = 4 ∨ m = 6 ∨ m = 9 ∨ m = 11 then 30
  else 31

/-- The day group `3[01]|[12]\d|0[1-9]|[1-9]`, followed by the
end-of-input check (`unconverted data remains` on leftover text). -/
def parseDay : List Char → Option Nat
  | [] => Option.none
  | [c] => if isDig c ∧ dVal c ≠ 0 then some (dVal c) else Option.none
  | c1 :: c2 :: rest =>
    if c1 = '3' ∧ (c2 = '0' ∨ c2 = '1') then
      (if rest = [] then some (10 * dVal c1 + dVal c2) else Option.none)
    else if (c1 = '1' ∨ c1 = '2') ∧ isDig c2 then
      (if rest = [] then some (10 * dVal c1 + dVal c2) else Option.none)
    else if c1 = '0' ∧ isDig c2 ∧ dVal c2 ≠ 0 then
      (if rest = [] then some (dVal c2) else Option.none)
    else Option.none

/-- Two-digit month alternatives `1[0-2]|0[1-9]`, then a literal `-` and
the day group. -/
def parseMDtwo (c1 c2 : Char) : List Char → Option (Nat × Nat)
  | e :: ds =>
    if ((c1 = '1' ∧ (c2 = '0' ∨ c2 = '1' ∨ c2 = '2')) ∨
        (c1 = '0' ∧ isDig c2 ∧ dVal c2 ≠ 0)) ∧ e = '-' then
      (parseDay ds).map (fun dy => (10 * dVal c1 + dVal c2, dy))
    else Option.none
  | [] => Option.none

/-- One-digit month alternative `[1-9]`, then a literal `-` and the day
group. -/
def parseMDone (c1 c2 : Char) (rest : List Char) : Option (Nat × Nat) :=
  if isDig c1 ∧ dVal c1 ≠ 0 ∧ c2 = '-' then
    (parseDay rest).map (fun dy => (dVal c1, dy))
  else Option.none

/-- The month group `1[0-2]|0[1-9]|[1-9]`, a literal `-`, and the day.
If the two-digit month alternative matches but the tail fails, the regex
backtracks to the one-digit alternative. -/
def parseMD : List Char → Option (Nat × Nat)
  | c1 :: c2 :: rest =>
    (parseMDtwo c1 c2 rest).elim (parseMDone c1 c2 rest) some
  | _ => Option.none

/-- Four year digits, a literal `-`, then month and day; finally the
`datetime` constructor validates the year (at least 1) and the
day-of-month. -/
def parseYMD : List Char → Option (Nat × Nat × Nat)
  | a :: b :: c :: d :: e :: rest =>
    if e = '-' ∧ isDig a ∧ isDig b ∧ isDig c ∧ isDig d then
      (parseMD rest).bind (fun md =>
        if 1 ≤ 1000 * dVal a + 100 * dVal b + 10 * dVal c + dVal d ∧
            md.2 ≤ daysInMonth (1000 * dVal a + 100 * dVal b + 10 * dVal c + dVal d) md.1 then
          some (1000 * dVal a + 100 * dVal b + 10 * dVal c + dVal d, md.1, md.2)
        else Option.none)
    else Option.none
  | _ => Option.none

/-- Models `dt.strftime("%Y-%m-%d")`: zero-padded four-digit year, two-digit
month and day. -/
def renderYMD (y m dy : Nat) : List Char :=
  [dChar (y / 1000 % 10), dChar (y / 100 % 10), dChar (y / 10 % 10), dChar (y % 10), '-',
   dChar (m / 10 % 10), dChar (m % 10), '-', dChar (dy / 10 % 10), dChar (dy % 10)]

/-- Models `_format_date_for_db`: parse `str(v).strip()` as `%Y-%m-%d` and
re-render as `%Y-%m-%d`; on any failure return the stripped text. -/
def format_date_for_db (s : String) : String :=
  match parseYMD (pyStrip s.data) with
  | some (y, m, dy) => String.mk (renderYMD y m dy)
  | Option.none => String.mk (pyStrip s.data)

/-! ### Facts about stripping and the date grammar -/

lemma dropWhile_self (p : α → Bool) (l : List α) :
    List.dropWhile p (List.dropWhile p l) = List.dropWhile p l := by
  induction l with
  | nil => rfl
  | cons a l ih =>
    by_cases h : p a
    · simp [List.dropWhile_cons, h, ih]
    · simp [List.dropWhile_cons, h]

lemma dropWhile_head_not {p : α → Bool} :
    ∀ {l a t}, List.dropWhile p l = a :: t → ¬ p a
  | [], a, t, h => by simp at h
  | b :: l, a, t, h => by
    by_cases hb : p b
    · rw [List.dropWhile_cons_of_pos hb] at h
      exact dropWhile_head_not h
    · rw [List.dropWhile_cons_of_neg hb] at h
      cases h; exact hb

lemma pyStrip_idem (l : List Char) : pyStrip (pyStrip l) = pyStrip l := by
  set p := isPySpace with hp
  set m := List.dropWhile p l with hm
  set u := List.dropWhile p m.reverse with hu
  have hstrip : pyStrip l = u.reverse := rfl
  have hA : List.dropWhile p u.reverse = u.reverse := by
    rcases hmc : m with _ | ⟨a, m'⟩
    · rw [hmc] at hu
      simp [hu]
    · have ha : ¬ p a := by
        refine dropWhile_head_not (l := l) (t := m') ?_
        rw [← hm, hmc]
      have hux : u = List.dropWhile p (m'.reverse ++ [a]) := by rw [hu, hmc]; simp
      rw [List.dropWhile_append] at hux
      by_cases he : (List.dropWhile p m'.reverse).isEmpty
      · rw [if_pos he] at hux
        rw [hux, List.dropWhile_cons_of_neg ha]
        simp [List.dropWhile_cons_of_neg ha]
      · rw [if_neg he] at hux
        rw [hux]
        simp [List.dropWhile_cons_of_neg ha]
  rw [hstrip]
  show ((List.dropWhile p u.reverse).reverse.dropWhile p).reverse = u.reverse
  rw [hA, List.reverse_reverse, hu, dropWhile_self]

lemma dChar_isDig {k : Nat} (h : k < 10) : isDig (dChar k) = true := by
  interval_cases k <;> decide

lemma dChar_dVal {k : Nat} (h : k < 10) : dVal (dChar k) = k := by
  interval_cases k <;> decide

lemma dChar_not_space {k : Nat} (h : k < 10) : isPySpace (dChar k) = false := by
  interval_cases k <;> decide

lemma isDig_le {c : Char} (h : isDig c = true) : dVal c ≤ 9 := by
  simp [isDig] at h
  simp [dVal]
  omega

lemma daysInMonth_le (y m : Nat) : daysInMonth y m ≤ 31 := by
  unfold daysInMonth
  split_ifs <;> omega

lemma mod10_lt (n k : Nat) : n / k % 10 < 10 := Nat.mod_lt _ (by norm_num)

lemma parseMD_render {m dy : Nat} (h1 : 1 ≤ m) (h2 : m ≤ 12) (h3 : 1 ≤ dy) (h4 : dy ≤ 31) :
    parseMD (dChar (m / 10 % 10) :: dChar (m % 10) :: '-' ::
             dChar (dy / 10 % 10) :: dChar (dy % 10) :: []) = some (m, dy) := by
  interval_cases m <;> interval_cases dy <;> decide

lemma parseYMD_render {y m dy : Nat} (hy1 : 1 ≤ y) (hy2 : y ≤ 9999)
    (hm1 : 1 ≤ m) (hm2 : m ≤ 12) (hd1 : 1 ≤ dy) (hd2 : dy ≤ daysInMonth y m) :
    parseYMD (renderYMD y m dy) = some (y, m, dy) := by
  have hd31 : dy ≤ 31 := le_trans hd2 (daysInMonth_le y m)
  have hmd := parseMD_render hm1 hm2 hd1 hd31
  have ha : y / 1000 % 10 < 10 := mod10_lt y 1000
  have hb : y / 100 % 10 < 10 := mod10_lt y 100
  have hc : y / 10 % 10 < 10 := mod10_lt y 10
  have hd : y % 10 < 10 := Nat.mod_lt _ (by norm_num)
  have hyv : 1000 * dVal (dChar (y / 1000 % 10)) + 100 * dVal (dChar (y / 100 % 10)) +
      10 * dVal (dChar (y / 10 % 10)) + dVal (dChar (y % 10)) = y := by
    rw [dChar_dVal ha, dChar_dVal hb, dChar_dVal hc, dChar_dVal hd]
    omega
  simp [parseYMD, renderYMD, dChar_isDig ha, dChar_isDig hb, dChar_isDig hc,
    dChar_isDig hd, hmd, hyv, hy1, hd2]

lemma parseDay_bounds : ∀ {l : List Char} {dy : Nat},
    parseDay l = some dy → 1 ≤ dy ∧ dy ≤ 31 := by
  intro l dy h
  rcases l with _ | ⟨c1, _ | ⟨c2, rest⟩⟩
  · simp [parseDay] at h
  · simp only [parseDay] at h
    split at h
    · rename_i hc
      obtain ⟨hc1, hc2⟩ := hc
      have := isDig_le hc1
      cases h
      omega
    · cases h
  · simp only [parseDay] at h
    split at h
    · rename_i hc
      obtain ⟨hc1, hc2⟩ := hc
      subst hc1
      have h2 : dVal c2 ≤ 1 := by
        rcases hc2 with h | h <;> subst h <;> decide
      split at h
      · cases h
        have : dVal '3' = 3 := rfl
        omega
      · cases h
    · split at h
      · rename_i hc
        obtain ⟨hc1, hc2⟩ := hc
        have h2 := isDig_le hc2
        have h1 : dVal c1 = 1 ∨ dVal c1 = 2 := by
          rcases hc1 with h | h <;> subst h
          · left; rfl
          · right; rfl
        split at h
        · cases h; omega
        · cases h
      · split at h
        · rename_i hc
          obtain ⟨hc1, hc2, hc3⟩ := hc
          have h2 := isDig_le hc2
          split at h
          · cases h; omega
          · cases h
        · cases h

lemma parseMDtwo_bounds {c1 c2 : Char} {l : List Char} {m dy : Nat}
    (h : parseMDtwo c1 c2 l = some (m, dy)) :
    1 ≤ m ∧ m ≤ 12 ∧ 1 ≤ dy ∧ dy ≤ 31 := by
  rcases l with _ | ⟨e, ds⟩
  · simp [parseMDtwo] at h
  · simp only [parseMDtwo] at h
    split at h
    · rename_i hcc
      obtain ⟨hc, he⟩ := hcc
      rcases hpd : parseDay ds with _ | d0
      · simp [hpd] at h
      · simp only [hpd, Option.map_some'] at h
        have hd := parseDay_bounds hpd
        simp only [Option.some.injEq, Prod.mk.injEq] at h
        obtain ⟨hm, hdy⟩ := h
        subst hm; subst hdy
        rcases hc with ⟨hc1, hc2⟩ | ⟨hc1, hc2, hc3⟩
        · subst hc1
          have h1 : dVal '1' = 1 := rfl
          have h2 : dVal c2 ≤ 2 := by
            rcases hc2 with h | h | h <;> subst h <;> decide
          omega
        · subst hc1
          have h1 : dVal '0' = 0 := rfl
          have h2 := isDig_le hc2
          omega
    · cases h

lemma parseMDone_bounds {c1 c2 : Char} {l : List Char} {m dy : Nat}
    (h : parseMDone c1 c2 l = some (m, dy)) :
    1 ≤ m ∧ m ≤ 12 ∧ 1 ≤ dy ∧ dy ≤ 31 := by
  simp only [parseMDone] at h
  split at h
  · rename_i hc
    obtain ⟨hc1, hc2, hc3⟩ := hc
    rcases hpd : parseDay l with _ | d0
    · simp [hpd] at h
    · simp only [hpd, Option.map_some'] at h
      have hd := parseDay_bounds hpd
      simp only [Option.some.injEq, Prod.mk.injEq] at h
      obtain ⟨hm, hdy⟩ := h
      subst hm; subst hdy
      have h2 := isDig_le hc1
      omega
  · cases h

lemma parseMD_bounds {l : List Char} {m dy : Nat}
    (h : parseMD l = some (m, dy)) : 1 ≤ m ∧ m ≤ 12 ∧ 1 ≤ dy ∧ dy ≤ 31 := by
  rcases l with _ | ⟨c1, _ | ⟨c2, rest⟩⟩
  · simp [parseMD] at h
  · simp [parseMD] at h
  · simp only [parseMD] at h
    rcases h2 : parseMDtwo c1 c2 rest with _ | r
    · simp only [h2, Option.elim] at h
      exact parseMDone_bounds h
    · simp only [h2, Option.elim] at h
      simp only [Option.some.injEq] at h
      subst h
      exact parseMDtwo_bounds h2

lemma parseYMD_bounds {l : List Char} {y m dy : Nat}
    (h : parseYMD l = some (y, m, dy)) :
    1 ≤ y ∧ y ≤ 9999 ∧ 1 ≤ m ∧ m ≤ 12 ∧ 1 ≤ dy ∧ dy ≤ daysInMonth y m := by
  rcases l with _ | ⟨a, _ | ⟨b, _ | ⟨c, _ | ⟨d, _ | ⟨e, rest⟩⟩⟩⟩⟩
  · simp [parseYMD] at h
  · simp [parseYMD] at h
  · simp [parseYMD] at h
  · simp [parseYMD] at h
  · simp [parseYMD] at h
  · simp only [parseYMD] at h
    split at h
    · rename_i hcc
      obtain ⟨he, hda, hdb, hdc, hdd⟩ := hcc
      rcases hmd : parseMD rest with _ | ⟨m0, dy0⟩
      · simp [hmd] at h
      · simp only [hmd, Option.some_bind] at h
        have hmb := parseMD_bounds hmd
        split at h
        · rename_i hok
          simp only [Option.some.injEq, Prod.mk.injEq] at h
          obtain ⟨hy, hm, hdy⟩ := h
          subst hy; subst hm; subst hdy
          have h1 := isDig_le hda
          have h2 := isDig_le hdb
          have h3 := isDig_le hdc
          have h4 := isDig_le hdd
          exact ⟨hok.1, by omega, hmb.1, hmb.2.1, hmb.2.2.1, hok.2⟩
        · cases h
    · cases h

lemma pyStrip_renderYMD (y m dy : Nat) :
    pyStrip (renderYMD y m dy) = renderYMD y m dy := by
  have h0 : isPySpace (dChar (y / 1000 % 10)) = false := dChar_not_space (mod10_lt y 1000)
  have h9 : isPySpace (dChar (dy % 10)) = false :=
    dChar_not_space (Nat.mod_lt _ (by norm_num))
  simp [pyStrip, renderYMD, List.dropWhile_cons, h0, h9]

/-- C8: `_format_date_for_db` never raises: when the trimmed input parses as
`YYYY-MM-DD` it is re-rendered in that form, otherwise the trimmed input is
returned unchanged; and the conversion is idempotent. -/
theorem c8_format_date_for_db_total_idempotent (s : String) :
    ((∃ t : Nat × Nat × Nat, parseYMD (pyStrip s.data) = some t ∧
        format_date_for_db s = String.mk (renderYMD t.1 t.2.1 t.2.2)) ∨
      (parseYMD (pyStrip s.data) = Option.none ∧
        format_date_for_db s = String.mk (pyStrip s.data))) ∧
    format_date_for_db (format_date_for_db s) = format_date_for_db s := by
  constructor
  · rcases hp : parseYMD (pyStrip s.data) with _ | ⟨y, m, dy⟩
    · exact Or.inr ⟨rfl, by simp [format_date_for_db, hp]⟩
    · exact Or.inl ⟨(y, m, dy), rfl, by simp [format_date_for_db, hp]⟩
  · rcases hp : parseYMD (pyStrip s.data) with _ | ⟨y, m, dy⟩
    · have h1 : format_date_for_db s = String.mk (pyStrip s.data) := by
        simp [format_date_for_db, hp]
      rw [h1]
      have h2 : pyStrip (String.mk (pyStrip s.data)).data = pyStrip s.data := by
        show pyStrip (pyStrip s.data) = pyStrip s.data
        exact pyStrip_idem s.data
      simp [format_date_for_db, h2, hp]
    · obtain ⟨hy1, hy2, hm1, hm2, hd1, hd2⟩ := parseYMD_bounds hp
      have h1 : format_date_for_db s = String.mk (renderYMD y m dy) := by
        simp [format_date_for_db, hp]
      rw [h1]
      have h2 : pyStrip (String.mk (renderYMD y m dy)).data = renderYMD y m dy := by
        show pyStrip (renderYMD y m dy) = renderYMD y m dy
        exact pyStrip_renderYMD y m dy
      simp [format_date_for_db, h2, parseYMD_render hy1 hy2 hm1 hm2 hd1 hd2]

/-! ### Cell values, configuration, display-form dates -/

/-- A cell of a query result or of the 2-D array handed back to Excel. -/
inductive Value where
  | int (i : Int)
  | num (q : ℚ)
  | str (s : String)
  | null
deriving DecidableEq

/-- The three `config.ini` settings.  The display pattern `DATE_FORMAT`
is modelled as the text `strftime(DATE_FORMAT)` produces on a parsed
date; the default pattern `%Y-%m-%d` is `renderYMD`. -/
structure Config where
  table_name : String
  displayRender : Nat × Nat × Nat → List Char

def defaultConfig : Config :=
  { table_name := "valuations",
    displayRender := fun t => renderYMD t.1 t.2.1 t.2.2 }

/-- Models `_format_date_for_excel`: parse `str(v).strip()` as `%Y-%m-%d` and
re-render with the configured display format; fall back to the stripped
text. -/
def format_date_for_excel (cfg : Config) (s : String) : String :=
  match parseYMD (pyStrip s.data) with
  | some t => String.mk (cfg.displayRender t)
  | Option.none => String.mk (pyStrip s.data)

/-! ### Host arguments, validation, `int(float(...))` -/

/-- An Excel argument as delivered by the host: a blank cell (`None`),
a number, or text.  Parameters annotated `str` in the source arrive as
text or `None` and are modelled as `Option String`. -/
inductive PyVal where
  | none
  | num (q : ℚ)
  | str (s : String)
deriving DecidableEq

def strArg : Option String → PyVal
  | Option.none => .none
  | some s => .str s

/-- Models `v is None or str(v).strip() == ""`.  `str` of a float is never
blank, so numbers never count as blank. -/
def PyVal.isBlank : PyVal → Bool
  | .none => true
  | .num _ => false
  | .str s => decide (pyStrip s.data = [])

/-- Models `_validate_inputs`: walk the keyword arguments in declaration order
and raise on the first blank one. -/
def validate : List (String × PyVal) → Option String
  | [] => Option.none
  | (nm, v) :: rest => if v.isBlank then some nm else validate rest

/-- Value of a digit string, most significant first. -/
def digitsVal (l : List Char) : Nat := l.foldl (fun a c => 10 * a + dVal c) 0

/-- Exponent part accepted by `float`: empty, or `e`/`E`, an optional
sign, and at least one digit. -/
def parseExp : List Char → Option Int
  | [] => some 0
  | c :: r =>
    if c = 'e' ∨ c = 'E' then
      match r with
      | '+' :: ds => if ds ≠ [] ∧ ds.all isDig then some ((digitsVal ds : Nat) : Int) else Option.none
      | '-' :: ds => if ds ≠ [] ∧ ds.all isDig then some (-((digitsVal ds : Nat) : Int)) else Option.none
      | ds => if ds ≠ [] ∧ ds.all isDig then some ((digitsVal ds : Nat) : Int) else Option.none
    else Option.none

/-- Models `float(text)` after stripping: optional sign, digits with optional
decimal point (at least one digit overall), optional exponent.
(`inf`, `nan` and digit underscores are not modelled.)  The value is the
exact decimal rational; CPython rounds to the nearest double, which none
of the checked claims depend on. -/
def parseFloat (l : List Char) : Option ℚ :=
  let core := fun (l1 : List Char) (sgn : ℚ) =>
    let ip := l1.takeWhile isDig
    let l2 := l1.dropWhile isDig
    match l2 with
    | '.' :: r =>
      let fp := r.takeWhile isDig
      let l3 := r.dropWhile isDig
      if ip = [] ∧ fp = [] then Option.none
      else (parseExp l3).map (fun e =>
        sgn * ((digitsVal ip : ℚ) + (digitsVal fp : ℚ) / (10 : ℚ) ^ fp.length) * (10 : ℚ) ^ e)
    | _ =>
      if ip = [] then Option.none
      else (parseExp l2).map (fun e => sgn * (digitsVal ip : ℚ) * (10 : ℚ) ^ e)
  match l with
  | '+' :: r => core r 1
  | '-' :: r => core r (-1)
  | r => core r 1

/-- Models `float(accord_code)`: numbers pass through, text is stripped and
parsed, `None` is a `TypeError`. -/
def pyFloat : PyVal → Except String ℚ
  | .none => .error "float() argument must be a string or a real number, not 'NoneType'"
  | .num q => .ok q
  | .str s =>
    match parseFloat (pyStrip s.data) with
    | some q => .ok q
    | Option.none => .error ("could not convert string to float: '" ++ s ++ "'")

/-- Models `int(q)` for a real value: truncation toward zero. -/
def truncInt (q : ℚ) : Int := q.num.tdiv q.den

/-! ### The data file and the six SQL statements

One table (`TABLE_NAME`) whose rows carry the base columns named in the
statements plus any further columns (`extra`).  `read_sql_query` yields
the projected columns in statement order; a full scan returns rows in
on-disk order, which is how the row list is kept. -/

structure Record where
  accord_code : Int
  date : String
  company_name : String
  sector : String
  mcap_category : String
  pe : ℚ
  extra : List (String × Value)
deriving DecidableEq

structure Db where
  extraCols : List String
  rows : List Record
deriving DecidableEq

def baseCols : List String :=
  ["accord_code", "date", "company_name", "sector", "mcap_category", "pe"]

/-- Whether `field` names a column, so that interpolating it into the
statement does not make SQLite raise `no such column`. -/
def Db.hasCol (db : Db) (f : String) : Bool :=
  decide (f ∈ baseCols ∨ f ∈ db.extraCols)

def getField (r : Record) (f : String) : Value :=
  if f = "accord_code" then .int r.accord_code
  else if f = "date" then .str r.date
  else if f = "company_name" then .str r.company_name
  else if f = "sector" then .str r.sector
  else if f = "mcap_category" then .str r.mcap_category
  else if f = "pe" then .num r.pe
  else match r.extra.lookup f with
       | some v => v
       | Option.none => .null

/-- A pandas frame as returned by `read_sql_query`: the projected column
names and the result rows. -/
structure DF where
  cols : List String
  rows : List (List Value)
deriving DecidableEq

/-- Models `ORDER BY date` (SQLite leaves the relative order of equal keys
unspecified; the model fixes it with a stable sort). -/
def sortByDate (l : List Record) : List Record :=
  List.insertionSort (fun r1 r2 => r1.date ≤ r2.date) l

/-- Models `ORDER BY accord_code` -/
def sortByCode (l : List Record) : List Record :=
  List.insertionSort (fun r1 r2 => r1.accord_code ≤ r2.accord_code) l

/-- Models `ORDER BY pe DESC` -/
def sortByPeDesc (l : List Record) : List Record :=
  List.insertionSort (fun r1 r2 => r2.pe ≤ r1.pe) l

def sqlPoint (cfg : Config) (field : String) : String :=
  "SELECT " ++ field ++ " FROM " ++ cfg.table_name ++ " WHERE accord_code=? AND date=?"

def pointRecs (db : Db) (code : Int) (fd : String) : List Record :=
  db.rows.filter (fun r => decide (r.accord_code = code ∧ r.date = fd))

def pointDF (db : Db) (field : String) (code : Int) (fd : String) : DF :=
  ⟨[field], (pointRecs db code fd).map (fun r => [getField r field])⟩

def queryPoint (db : Db) (field : String) (code : Int) (fd : String) : Except String DF :=
  if db.hasCol field then .ok (pointDF db field code fd)
  else .error ("no such column: " ++ field)

def sqlSeries (cfg : Config) (field : String) : String :=
  "SELECT date, " ++ field ++ " FROM " ++ cfg.table_name ++
    " WHERE accord_code=? AND date BETWEEN ? AND ? ORDER BY date"

def seriesRecs (db : Db) (code : Int) (fd1 fd2 : String) : List Record :=
  sortByDate (db.rows.filter (fun r =>
    decide (r.accord_code = code ∧ fd1 ≤ r.date ∧ r.date ≤ fd2)))

def seriesDF (db : Db) (field : String) (code : Int) (fd1 fd2 : String) : DF :=
  ⟨["date", field],
   (seriesRecs db code fd1 fd2).map (fun r => [.str r.date, getField r field])⟩

def querySeries (db : Db) (field : String) (code : Int) (fd1 fd2 : String) :
    Except String DF :=
  if db.hasCol field then .ok (seriesDF db field code fd1 fd2)
  else .error ("no such column: " ++ field)

def sqlMatrix (cfg : Config) (field : String) : String :=
  "SELECT accord_code, company_name, sector, mcap_category, " ++ field ++
    " FROM " ++ cfg.table_name ++ " WHERE date=? ORDER BY accord_code"

def matrixRecs (db : Db) (fd : String) : List Record :=
  sortByCode (db.rows.filter (fun r => decide (r.date = fd)))

def matrixDF (db : Db) (field : String) (fd : String) : DF :=
  ⟨["accord_code", "company_name", "sector", "mcap_category", field],
   (matrixRecs db fd).map (fun r =>
     [.int r.accord_code, .str r.company_name, .str r.sector,
      .str r.mcap_category, getField r field])⟩

def queryMatrix (db : Db) (field : String) (fd : String) : Except String DF :=
  if db.hasCol field then .ok (matrixDF db field fd)
  else .error ("no such column: " ++ field)

def sqlAllPe (cfg : Config) (field : String) : String :=
  "SELECT date, " ++ field ++ " FROM " ++ cfg.table_name ++
    " WHERE accord_code=? ORDER BY date"

def allPeRecs (db : Db) (code : Int) : List Record :=
  sortByDate (db.rows.filter (fun r => decide (r.accord_code = code)))

def allPeDF (db : Db) (field : String) (code : Int) : DF :=
  ⟨["date", field], (allPeRecs db code).map (fun r => [.str r.date, getField r field])⟩

def queryAllPe (db : Db) (field : String) (code : Int) : Except String DF :=
  if db.hasCol field then .ok (allPeDF db field code)
  else .error ("no such column: " ++ field)

def sqlMcap (cfg : Config) : String :=
  "SELECT accord_code, company_name, sector, pe FROM " ++ cfg.table_name ++
    " WHERE mcap_category=? AND date=? ORDER BY pe DESC"

def mcapRecs (db : Db) (bucket fd : String) : List Record :=
  sortByPeDesc (db.rows.filter (fun r => decide (r.mcap_category = bucket ∧ r.date = fd)))

def queryMcap (db : Db) (bucket fd : String) : DF :=
  ⟨["accord_code", "company_name", "sector", "pe"],
   (mcapRecs db bucket fd).map (fun r =>
     [.int r.accord_code, .str r.company_name, .str r.sector, .num r.pe])⟩

def sqlSector (cfg : Config) : String :=
  "SELECT accord_code, company_name, mcap_category, pe FROM " ++ cfg.table_name ++
    " WHERE sector=? AND date=? ORDER BY pe DESC"

def sectorRecs (db : Db) (sec fd : String) : List Record :=
  sortByPeDesc (db.rows.filter (fun r => decide (r.sector = sec ∧ r.date = fd)))

def querySector (db : Db) (sec fd : String) : DF :=
  ⟨["accord_code", "company_name", "mcap_category", "pe"],
   (sectorRecs db sec fd).map (fun r =>
     [.int r.accord_code, .str r.company_name, .str r.mcap_category, .num r.pe])⟩

/-! ### Cache, query log, `log_call` -/

/-- One line of `query_log.txt`: either the `_run_query_df` timing line
(its wall-clock duration is not modelled) or the `log_call` outcome
line. -/
inductive LogLine where
  | query (sql : String) (params : List Value)
  | call (fn : String) (ok : Bool) (err : Option String)
deriving DecidableEq

/-- An `lru_cache` key: the literal SQL text and the parameter tuple. -/
abbrev QKey := String × List Value

/-- Process state: the memo in most-recently-used-first order, a count
of data-file reads, and the log (newest first). -/
structure SysState where
  cache : List (QKey × DF)
  dbReads : Nat
  log : List LogLine
deriving DecidableEq

def initState : SysState := ⟨[], 0, []⟩

def pushLog (st : SysState) (ln : LogLine) : SysState :=
  { st with log := ln :: st.log }

def lookupC : List (QKey × DF) → QKey → Option DF
  | [], _ => Option.none
  | e :: rest, k => if e.1 = k then some e.2 else lookupC rest k

def removeKey : List (QKey × DF) → QKey → List (QKey × DF)
  | [], _ => []
  | e :: rest, k => if e.1 = k then removeKey rest k else e :: removeKey rest k

def MAXSIZE : Nat := 128

def insertC (c : List (QKey × DF)) (k : QKey) (v : DF) : List (QKey × DF) :=
  (k, v) :: (if c.length < MAXSIZE then c else c.dropLast)

/-- Models `_cached_query` under `lru_cache(maxsize=128)`: a hit returns the
stored frame and moves it to most-recently-used; a miss runs the
statement against the data file (counted by `dbReads`) and stores the
result, evicting the least-recently-used entry when full.  A raised
exception is not cached. -/
def cachedQuery (k : QKey) (run : Except String DF) (st : SysState) :
    Except String DF × SysState :=
  match lookupC st.cache k with
  | some t => (.ok t, { st with cache := (k, t) :: removeKey st.cache k })
  | Option.none =>
    match run with
    | .ok t => (.ok t, { st with cache := insertC st.cache k t, dbReads := st.dbReads + 1 })
    | .error e => (.error e, { st with dbReads := st.dbReads + 1 })

/-- Models `_run_query_df`: run the cached query, then emit the timing line
(hit or miss alike; skipped when the query raised, since the exception
propagates before `logger.info`). -/
def runQueryDf (k : QKey) (run : Except String DF) (st : SysState) :
    Except String DF × SysState :=
  match cachedQuery k run st with
  | (.ok t, st1) => (.ok t, pushLog st1 (.query k.1 k.2))
  | (.error e, st1) => (.error e, st1)

/-- Run a sequence of queries for their state effect. -/
def runSeq (steps : List (QKey × Except String DF)) (st : SysState) : SysState :=
  match steps with
  | [] => st
  | s :: rest => runSeq rest (runQueryDf s.1 s.2 st).2

/-- The `log_call` decorator: run the body and, in `finally`, append one
outcome line; a raised exception is recorded and re-raised unchanged. -/
def logCall (fn : String) (body : SysState → Except String α × SysState)
    (st : SysState) : Except String α × SysState :=
  match body st with
  | (.ok v, st1) => (.ok v, pushLog st1 (.call fn true Option.none))
  | (.error e, st1) => (.error e, pushLog st1 (.call fn false (some e)))

/-! ### The public UDFs -/

/-- The 2-D array handed back to Excel. -/
abbrev ExcelTable := List (List Value)

def headerRow (df : DF) : List Value := df.cols.map Value.str

/-- Models `df['date'] = df['date'].apply(_format_date_for_excel)`: rewrite the
column named `date` (the stored dates are text cells). -/
def dateDisplay (cfg : Config) : Value → Value
  | .str s => .str (format_date_for_excel cfg s)
  | v => v

def mapDateCol (cfg : Config) (df : DF) : DF :=
  ⟨df.cols, df.rows.map (fun row =>
    row.set (df.cols.findIdx (fun c => c == "date"))
      (dateDisplay cfg (row.getD (df.cols.findIdx (fun c => c == "date")) .null)))⟩

/-- Models `get_daily_data(accord_code, field, date_value)` -/
def get_daily_data (cfg : Config) (db : Db) (accord_code : PyVal)
    (field date_value : Option String) (st : SysState) :
    Except String ExcelTable × SysState :=
  logCall "get_daily_data" (fun st =>
    match validate [("accord_code", accord_code), ("field", strArg field),
                    ("date_value", strArg date_value)] with
    | some nm => (.error ("Missing required input: " ++ nm), st)
    | Option.none =>
      match pyFloat accord_code with
      | .error e => (.error e, st)
      | .ok q =>
        let code := truncInt q
        let f := field.getD ""
        let fd := format_date_for_db (date_value.getD "")
        match runQueryDf (sqlPoint cfg f, [.int code, .str fd])
            (queryPoint db f code fd) st with
        | (.error e, st1) => (.error e, st1)
        | (.ok df, st1) =>
          if df.rows = [] then
            (.ok [[.str ("No data found for " ++ toString code ++ " on " ++ fd)]], st1)
          else
            (.ok [[(df.rows.headD []).headD .null]], st1)) st

/-- Models `get_series(accord_code, field, start_date, end_date)` -/
def get_series (cfg : Config) (db : Db) (accord_code : PyVal)
    (field start_date end_date : Option String) (st : SysState) :
    Except String ExcelTable × SysState :=
  logCall "get_series" (fun st =>
    match validate [("accord_code", accord_code), ("field", strArg field),
                    ("start_date", strArg start_date), ("end_date", strArg end_date)] with
    | some nm => (.error ("Missing required input: " ++ nm), st)
    | Option.none =>
      match pyFloat accord_code with
      | .error e => (.error e, st)
      | .ok q =>
        let code := truncInt q
        let f := field.getD ""
        let fd1 := format_date_for_db (start_date.getD "")
        let fd2 := format_date_for_db (end_date.getD "")
        match runQueryDf (sqlSeries cfg f, [.int code, .str fd1, .str fd2])
            (querySeries db f code fd1 fd2) st with
        | (.error e, st1) => (.error e, st1)
        | (.ok df, st1) =>
          if df.rows = [] then
            (.ok [[.str ("No data found for " ++ toString code ++ " between " ++
              fd1 ++ " and " ++ fd2)]], st1)
          else
            (.ok (headerRow df :: (mapDateCol cfg df).rows), st1)) st

/-- Models `get_daily_matrix(date_value, field)` -/
def get_daily_matrix (cfg : Config) (db : Db)
    (date_value field : Option String) (st : SysState) :
    Except String ExcelTable × SysState :=
  logCall "get_daily_matrix" (fun st =>
    match validate [("date_value", strArg date_value), ("field", strArg field)] with
    | some nm => (.error ("Missing required input: " ++ nm), st)
    | Option.none =>
      let fd := format_date_for_db (date_value.getD "")
      let f := field.getD ""
      match runQueryDf (sqlMatrix cfg f, [.str fd]) (queryMatrix db f fd) st with
      | (.error e, st1) => (.error e, st1)
      | (.ok df, st1) =>
        if df.rows = [] then
          (.ok [[.str ("No data found for " ++ fd)]], st1)
        else
          let df2 := if ("date" : String) ∈ df.cols then mapDateCol cfg df else df
          (.ok (headerRow df2 :: df2.rows), st1)) st

/-- Models `get_all_pe(accord_code, field)` -/
def get_all_pe (cfg : Config) (db : Db) (accord_code : PyVal)
    (field : Option String) (st : SysState) :
    Except String ExcelTable × SysState :=
  logCall "get_all_pe" (fun st =>
    match validate [("accord_code", accord_code), ("field", strArg field)] with
    | some nm => (.error ("Missing required input: " ++ nm), st)
    | Option.none =>
      match pyFloat accord_code with
      | .error e => (.error e, st)
      | .ok q =>
        let code := truncInt q
        let f := field.getD ""
        match runQueryDf (sqlAllPe cfg f, [.int code]) (queryAllPe db f code) st with
        | (.error e, st1) => (.error e, st1)
        | (.ok df, st1) =>
          if df.rows = [] then
            (.ok [[.str ("No data found for " ++ toString code)]], st1)
          else
            (.ok (headerRow df :: (mapDateCol cfg df).rows), st1)) st

/-- Models `get_mcap_matrix(mcap_category, date_value)` -/
def get_mcap_matrix (cfg : Config) (db : Db)
    (mcap_category date_value : Option String) (st : SysState) :
    Except String ExcelTable × SysState :=
  logCall "get_mcap_matrix" (fun st =>
    match validate [("mcap_category", strArg mcap_category),
                    ("date_value", strArg date_value)] with
    | some nm => (.error ("Missing required input: " ++ nm), st)
    | Option.none =>
      let fd := format_date_for_db (date_value.getD "")
      let b := mcap_category.getD ""
      match runQueryDf (sqlMcap cfg, [.str b, .str fd]) (.ok (queryMcap db b fd)) st with
      | (.error e, st1) => (.error e, st1)
      | (.ok df, st1) =>
        if df.rows = [] then
          (.ok [[.str ("No data found for " ++ b ++ " on " ++ fd)]], st1)
        else
          (.ok ((df.cols ++ ["date"]).map Value.str ::
            df.rows.map (fun row => row ++ [.str fd])), st1)) st

/-- Models `get_pe_for_sector(sector, date_value)` -/
def get_pe_for_sector (cfg : Config) (db : Db)
    (sector date_value : Option String) (st : SysState) :
    Except String ExcelTable × SysState :=
  logCall "get_pe_for_sector" (fun st =>
    match validate [("sector", strArg sector), ("date_value", strArg date_value)] with
    | some nm => (.error ("Missing required input: " ++ nm), st)
    | Option.none =>
      let fd := format_date_for_db (date_value.getD "")
      let sec := sector.getD ""
      match runQueryDf (sqlSector cfg, [.str sec, .str fd]) (.ok (querySector db sec fd)) st with
      | (.error e, st1) => (.error e, st1)
      | (.ok df, st1) =>
        if df.rows = [] then
          (.ok [[.str ("No data found for sector " ++ sec ++ " on " ++ fd)]], st1)
        else
          (.ok ((df.cols ++ ["date"]).map Value.str ::
            df.rows.map (fun row => row ++ [.str fd])), st1)) st

/-- Models `clear_cache()` -/
def clear_cache (st : SysState) : Except String String × SysState :=
  logCall "clear_cache"
    (fun st => (.ok "Cache cleared successfully.", { st with cache := [] })) st

/-! ### Cache lemmas -/

def keysNodup (c : List (QKey × DF)) : Prop := (c.map Prod.fst).Nodup

lemma lookupC_keyed : ∀ {c : List (QKey × DF)} {k : QKey},
    (∀ e ∈ c, e.1 ≠ k) → lookupC c k = Option.none := by
  intro c k h
  induction c with
  | nil => rfl
  | cons e rest ih =>
    have he := h e (by simp)
    simp only [lookupC, if_neg he]
    exact ih (fun x hx => h x (by simp [hx]))

lemma lookupC_hit : ∀ {front back : List (QKey × DF)} {k : QKey} {t : DF},
    (∀ e ∈ front, e.1 ≠ k) → lookupC (front ++ (k, t) :: back) k = some t := by
  intro front back k t h
  induction front with
  | nil => simp [lookupC]
  | cons e rest ih =>
    have he := h e (by simp)
    simp only [List.cons_append, lookupC, if_neg he]
    exact ih (fun x hx => h x (by simp [hx]))

lemma lookupC_none_not_mem : ∀ {c : List (QKey × DF)} {k : QKey},
    lookupC c k = Option.none → ∀ e ∈ c, e.1 ≠ k := by
  intro c k
  induction c with
  | nil => intro _ e he; cases he
  | cons x rest ih =>
    intro h e he
    simp only [lookupC] at h
    by_cases hx : x.1 = k
    · rw [if_pos hx] at h; cases h
    · rw [if_neg hx] at h
      rcases List.mem_cons.mp he with he | he
      · subst he; exact hx
      · exact ih h e he

lemma removeKey_append (xs ys : List (QKey × DF)) (k : QKey) :
    removeKey (xs ++ ys) k = removeKey xs k ++ removeKey ys k := by
  induction xs with
  | nil => rfl
  | cons e rest ih =>
    by_cases he : e.1 = k <;> simp [removeKey, he, ih]

lemma removeKey_sublist : ∀ (c : List (QKey × DF)) (k : QKey),
    (removeKey c k).Sublist c := by
  intro c k
  induction c with
  | nil => exact List.Sublist.refl _
  | cons e rest ih =>
    by_cases he : e.1 = k
    · simp only [removeKey, if_pos he]
      exact ih.cons e
    · simp only [removeKey, if_neg he]
      exact ih.cons₂ e

lemma removeKey_not_mem (c : List (QKey × DF)) (k : QKey) :
    ∀ e ∈ removeKey c k, e.1 ≠ k := by
  induction c with
  | nil => intro e he; cases he
  | cons x rest ih =>
    intro e he
    by_cases hx : x.1 = k
    · simp only [removeKey, if_pos hx] at he
      exact ih e he
    · simp only [removeKey, if_neg hx] at he
      rcases List.mem_cons.mp he with he | he
      · subst he; exact hx
      · exact ih e he

lemma removeKey_nodup {c : List (QKey × DF)} (k : QKey) (h : keysNodup c) :
    keysNodup (removeKey c k) :=
  List.Nodup.sublist ((removeKey_sublist c k).map Prod.fst) h

lemma lookupC_some_length : ∀ {c : List (QKey × DF)} {k : QKey} {v : DF},
    lookupC c k = some v → (removeKey c k).length + 1 ≤ c.length := by
  intro c k v h
  induction c with
  | nil => cases h
  | cons e rest ih =>
    simp only [lookupC] at h
    by_cases he : e.1 = k
    · simp only [removeKey, if_pos he, List.length_cons]
      have := (removeKey_sublist rest k).length_le
      omega
    · rw [if_neg he] at h
      simp only [removeKey, if_neg he, List.length_cons]
      have := ih h
      omega

/-- If the cached value under a key (when present) agrees with the fresh
query result, `_run_query_df` returns that result on hit and miss
alike. -/
lemma runQueryDf_result {k : QKey} {t : DF} {run : Except String DF} {st : SysState}
    (hcoh : ∀ v, lookupC st.cache k = some v → v = t) (hrun : run = .ok t) :
    (runQueryDf k run st).1 = .ok t := by
  rcases hlk : lookupC st.cache k with _ | v
  · simp [runQueryDf, cachedQuery, hlk, hrun]
  · have hv := hcoh v hlk
    subst hv
    simp [runQueryDf, cachedQuery, hlk]

/-! ### Shape of each query operation's result -/

lemma logCall_fst {α : Type} (fn : String)
    (body : SysState → Except String α × SysState) (st : SysState) :
    (logCall fn body st).1 = (body st).1 := by
  rcases h : body st with ⟨r, st1⟩
  rcases r with v | e <;> simp [logCall, h]

lemma strArg_not_blank {s : String} (h : pyStrip s.data ≠ []) :
    (strArg (some s)).isBlank = false := by
  simp [strArg, PyVal.isBlank, h]

lemma logCall_log {α : Type} (fn : String)
    (body : SysState → Except String α × SysState) (st : SysState) :
    (logCall fn body st).2.log =
      (match (body st).1 with
        | .ok _ => LogLine.call fn true Option.none
        | .error e => LogLine.call fn false (some e)) :: (body st).2.log := by
  rcases h : body st with ⟨r, st1⟩
  rcases r with v | e <;> simp [logCall, pushLog, h]

lemma logCall_error_of_body {α : Type} (fn : String)
    (body : SysState → Except String α × SysState) (st : SysState) (e : String)
    (h : body st = (.error e, st)) :
    logCall fn body st = (.error e, pushLog st (.call fn false (some e))) := by
  simp [logCall, h]

lemma get_daily_data_spec (cfg : Config) (db : Db) (a : PyVal) (q : ℚ)
    (field date_value : String) (st : SysState)
    (ha : a.isBlank = false) (hq : pyFloat a = .ok q)
    (hf : pyStrip field.data ≠ []) (hd : pyStrip date_value.data ≠ [])
    (hcol : db.hasCol field = true)
    (hcoh : ∀ v, lookupC st.cache (sqlPoint cfg field,
        [.int (truncInt q), .str (format_date_for_db date_value)]) = some v →
        v = pointDF db field (truncInt q) (format_date_for_db date_value)) :
    (get_daily_data cfg db a (some field) (some date_value) st).1 =
      .ok (if (pointDF db field (truncInt q) (format_date_for_db date_value)).rows = [] then
        [[.str ("No data found for " ++ toString (truncInt q) ++ " on " ++
          format_date_for_db date_value)]]
      else
        [[((pointDF db field (truncInt q) (format_date_for_db date_value)).rows.headD
            []).headD .null]]) := by
  have hrun : (runQueryDf (sqlPoint cfg field,
      [.int (truncInt q), .str (format_date_for_db date_value)])
      (queryPoint db field (truncInt q) (format_date_for_db date_value)) st).1 =
      .ok (pointDF db field (truncInt q) (format_date_for_db date_value)) :=
    runQueryDf_result hcoh (by simp [queryPoint, hcol])
  rcases hR : runQueryDf (sqlPoint cfg field,
      [.int (truncInt q), .str (format_date_for_db date_value)])
      (queryPoint db field (truncInt q) (format_date_for_db date_value)) st with ⟨r, st1⟩
  rw [hR] at hrun
  have hr : r = .ok (pointDF db field (truncInt q) (format_date_for_db date_value)) := hrun
  subst hr
  simp only [get_daily_data]
  rw [logCall_fst]
  simp only [validate, ha, strArg_not_blank hf, strArg_not_blank hd,
    Bool.false_eq_true, if_false, hq, Option.getD_some, hR]
  split <;> simp [*]

lemma get_series_spec (cfg : Config) (db : Db) (a : PyVal) (q : ℚ)
    (field start_date end_date : String) (st : SysState)
    (ha : a.isBlank = false) (hq : pyFloat a = .ok q)
    (hf : pyStrip field.data ≠ []) (hd1 : pyStrip start_date.data ≠ [])
    (hd2 : pyStrip end_date.data ≠ [])
    (hcol : db.hasCol field = true)
    (hcoh : ∀ v, lookupC st.cache (sqlSeries cfg field,
        [.int (truncInt q), .str (format_date_for_db start_date),
         .str (format_date_for_db end_date)]) = some v →
        v = seriesDF db field (truncInt q) (format_date_for_db start_date)
              (format_date_for_db end_date)) :
    (get_series cfg db a (some field) (some start_date) (some end_date) st).1 =
      .ok (if (seriesDF db field (truncInt q) (format_date_for_db start_date)
          (format_date_for_db end_date)).rows = [] then
        [[.str ("No data found for " ++ toString (truncInt q) ++ " between " ++
          format_date_for_db start_date ++ " and " ++ format_date_for_db end_date)]]
      else
        headerRow (seriesDF db field (truncInt q) (format_date_for_db start_date)
            (format_date_for_db end_date)) ::
          (mapDateCol cfg (seriesDF db field (truncInt q) (format_date_for_db start_date)
            (format_date_for_db end_date))).rows) := by
  have hrun : (runQueryDf (sqlSeries cfg field,
      [.int (truncInt q), .str (format_date_for_db start_date),
       .str (format_date_for_db end_date)])
      (querySeries db field (truncInt q) (format_date_for_db start_date)
        (format_date_for_db end_date)) st).1 =
      .ok (seriesDF db field (truncInt q) (format_date_for_db start_date)
        (format_date_for_db end_date)) :=
    runQueryDf_result hcoh (by simp [querySeries, hcol])
  rcases hR : runQueryDf (sqlSeries cfg field,
      [.int (truncInt q), .str (format_date_for_db start_date),
       .str (format_date_for_db end_date)])
      (querySeries db field (truncInt q) (format_date_for_db start_date)
        (format_date_for_db end_date)) st with ⟨r, st1⟩
  rw [hR] at hrun
  have hr : r = .ok (seriesDF db field (truncInt q) (format_date_for_db start_date)
      (format_date_for_db end_date)) := hrun
  subst hr
  simp only [get_series]
  rw [logCall_fst]
  simp only [validate, ha, strArg_not_blank hf, strArg_not_blank hd1,
    strArg_not_blank hd2, Bool.false_eq_true, if_false, hq, Option.getD_some, hR]
  split <;> simp [*]

lemma get_daily_matrix_spec (cfg : Config) (db : Db)
    (date_value field : String) (st : SysState)
    (hd : pyStrip date_value.data ≠ []) (hf : pyStrip field.data ≠ [])
    (hcol : db.hasCol field = true)
    (hcoh : ∀ v, lookupC st.cache (sqlMatrix cfg field,
        [.str (format_date_for_db date_value)]) = some v →
        v = matrixDF db field (format_date_for_db date_value)) :
    (get_daily_matrix cfg db (some date_value) (some field) st).1 =
      .ok (if (matrixDF db field (format_date_for_db date_value)).rows = [] then
        [[.str ("No data found for " ++ format_date_for_db date_value)]]
      else
        (if ("date" : String) ∈ (matrixDF db field (format_date_for_db date_value)).cols then
          headerRow (matrixDF db field (format_date_for_db date_value)) ::
            (mapDateCol cfg (matrixDF db field (format_date_for_db date_value))).rows
        else
          headerRow (matrixDF db field (format_date_for_db date_value)) ::
            (matrixDF db field (format_date_for_db date_value)).rows)) := by
  have hrun : (runQueryDf (sqlMatrix cfg field, [.str (format_date_for_db date_value)])
      (queryMatrix db field (format_date_for_db date_value)) st).1 =
      .ok (matrixDF db field (format_date_for_db date_value)) :=
    runQueryDf_result hcoh (by simp [queryMatrix, hcol])
  rcases hR : runQueryDf (sqlMatrix cfg field, [.str (format_date_for_db date_value)])
      (queryMatrix db field (format_date_for_db date_value)) st with ⟨r, st1⟩
  rw [hR] at hrun
  have hr : r = .ok (matrixDF db field (format_date_for_db date_value)) := hrun
  subst hr
  simp only [get_daily_matrix]
  rw [logCall_fst]
  simp only [validate, strArg_not_blank hf, strArg_not_blank hd,
    Bool.false_eq_true, if_false, Option.getD_some, hR]
  split
  · simp [*]
  · rename_i hne
    split <;> simp [*, mapDateCol, headerRow]

lemma get_all_pe_spec (cfg : Config) (db : Db) (a : PyVal) (q : ℚ)
    (field : String) (st : SysState)
    (ha : a.isBlank = false) (hq : pyFloat a = .ok q)
    (hf : pyStrip field.data ≠ [])
    (hcol : db.hasCol field = true)
    (hcoh : ∀ v, lookupC st.cache (sqlAllPe cfg field,
        [.int (truncInt q)]) = some v → v = allPeDF db field (truncInt q)) :
    (get_all_pe cfg db a (some field) st).1 =
      .ok (if (allPeDF db field (truncInt q)).rows = [] then
        [[.str ("No data found for " ++ toString (truncInt q))]]
      else
        headerRow (allPeDF db field (truncInt q)) ::
          (mapDateCol cfg (allPeDF db field (truncInt q))).rows) := by
  have hrun : (runQueryDf (sqlAllPe cfg field, [.int (truncInt q)])
      (queryAllPe db field (truncInt q)) st).1 = .ok (allPeDF db field (truncInt q)) :=
    runQueryDf_result hcoh (by simp [queryAllPe, hcol])
  rcases hR : runQueryDf (sqlAllPe cfg field, [.int (truncInt q)])
      (queryAllPe db field (truncInt q)) st with ⟨r, st1⟩
  rw [hR] at hrun
  have hr : r = .ok (allPeDF db field (truncInt q)) := hrun
  subst hr
  simp only [get_all_pe]
  rw [logCall_fst]
  simp only [validate, ha, strArg_not_blank hf, Bool.false_eq_true, if_false,
    hq, Option.getD_some, hR]
  split <;> simp [*]

lemma get_mcap_matrix_spec (cfg : Config) (db : Db)
    (bucket date_value : String) (st : SysState)
    (hb : pyStrip bucket.data ≠ []) (hd : pyStrip date_value.data ≠ [])
    (hcoh : ∀ v, lookupC st.cache (sqlMcap cfg,
        [.str bucket, .str (format_date_for_db date_value)]) = some v →
        v = queryMcap db bucket (format_date_for_db date_value)) :
    (get_mcap_matrix cfg db (some bucket) (some date_value) st).1 =
      .ok (if (queryMcap db bucket (format_date_for_db date_value)).rows = [] then
        [[.str ("No data found for " ++ bucket ++ " on " ++ format_date_for_db date_value)]]
      else
        ((queryMcap db bucket (format_date_for_db date_value)).cols ++ ["date"]).map Value.str ::
          (queryMcap db bucket (format_date_for_db date_value)).rows.map
            (fun row => row ++ [.str (format_date_for_db date_value)])) := by
  have hrun : (runQueryDf (sqlMcap cfg, [.str bucket, .str (format_date_for_db date_value)])
      (.ok (queryMcap db bucket (format_date_for_db date_value))) st).1 =
      .ok (queryMcap db bucket (format_date_for_db date_value)) :=
    runQueryDf_result hcoh rfl
  rcases hR : runQueryDf (sqlMcap cfg, [.str bucket, .str (format_date_for_db date_value)])
      (.ok (queryMcap db bucket (format_date_for_db date_value))) st with ⟨r, st1⟩
  rw [hR] at hrun
  have hr : r = .ok (queryMcap db bucket (format_date_for_db date_value)) := hrun
  subst hr
  simp only [get_mcap_matrix]
  rw [logCall_fst]
  simp only [validate, strArg_not_blank hb, strArg_not_blank hd,
    Bool.false_eq_true, if_false, Option.getD_some, hR]
  split <;> simp [*]

lemma get_pe_for_sector_spec (cfg : Config) (db : Db)
    (sec date_value : String) (st : SysState)
    (hs : pyStrip sec.data ≠ []) (hd : pyStrip date_value.data ≠ [])
    (hcoh : ∀ v, lookupC st.cache (sqlSector cfg,
        [.str sec, .str (format_date_for_db date_value)]) = some v →
        v = querySector db sec (format_date_for_db date_value)) :
    (get_pe_for_sector cfg db (some sec) (some date_value) st).1 =
      .ok (if (querySector db sec (format_date_for_db date_value)).rows = [] then
        [[.str ("No data found for sector " ++ sec ++ " on " ++ format_date_for_db date_value)]]
      else
        ((querySector db sec (format_date_for_db date_value)).cols ++ ["date"]).map Value.str ::
          (querySector db sec (format_date_for_db date_value)).rows.map
            (fun row => row ++ [.str (format_date_for_db date_value)])) := by
  have hrun : (runQueryDf (sqlSector cfg, [.str sec, .str (format_date_for_db date_value)])
      (.ok (querySector db sec (format_date_for_db date_value))) st).1 =
      .ok (querySector db sec (format_date_for_db date_value)) :=
    runQueryDf_result hcoh rfl
  rcases hR : runQueryDf (sqlSector cfg, [.str sec, .str (format_date_for_db date_value)])
      (.ok (querySector db sec (format_date_for_db date_value))) st with ⟨r, st1⟩
  rw [hR] at hrun
  have hr : r = .ok (querySector db sec (format_date_for_db date_value)) := hrun
  subst hr
  simp only [get_pe_for_sector]
  rw [logCall_fst]
  simp only [validate, strArg_not_blank hs, strArg_not_blank hd,
    Bool.false_eq_true, if_false, Option.getD_some, hR]
  split <;> simp [*]

/-! ### Concrete data used by witnesses and counterexamples -/

def dbW : Db := ⟨[], [
  ⟨1001, "2024-01-15", "Acme", "Tech", "Large", 18, []⟩,
  ⟨1002, "2024-01-15", "Bolt", "Tech", "Large", 25, []⟩,
  ⟨1003, "2024-01-10", "Cog", "Auto", "Mid", 7, []⟩]⟩

/-- Models `strftime("%d/%m/%Y")`: a non-default display date format. -/
def renderDMY (t : Nat × Nat × Nat) : List Char :=
  [dChar (t.2.2 / 10 % 10), dChar (t.2.2 % 10), '/',
   dChar (t.2.1 / 10 % 10), dChar (t.2.1 % 10), '/',
   dChar (t.1 / 1000 % 10), dChar (t.1 / 100 % 10), dChar (t.1 / 10 % 10), dChar (t.1 % 10)]

/-- A configuration whose `date_format` is `%d/%m/%Y`. -/
def cfgDMY : Config := { table_name := "valuations", displayRender := renderDMY }

/-! ### Claims -/

/-- C7: the `log_call` wrapper forwards the wrapped operation's outcome
unchanged — the result value on a normal return, the very same exception
on a raised failure (it never converts a failure into a normal return) —
and appends exactly one outcome line, which records the failure message
when the operation raised. -/
theorem c7_log_call_observes_and_forwards {α : Type} (fn : String)
    (body : SysState → Except String α × SysState) (st : SysState) :
    (logCall fn body st).1 = (body st).1 ∧
    (logCall fn body st).2.cache = (body st).2.cache ∧
    (logCall fn body st).2.dbReads = (body st).2.dbReads ∧
    (logCall fn body st).2.log =
      (match (body st).1 with
        | .ok _ => LogLine.call fn true Option.none
        | .error e => LogLine.call fn false (some e)) :: (body st).2.log := by
  rcases h : body st with ⟨r, st1⟩
  rcases r with v | e <;> simp [logCall, pushLog, h]

/-- C5: `clear_cache` empties the memo unconditionally and returns the
confirmation message; any query issued right after the clear misses the
memo, so the statement executes against the data file again (one more
file read) and its fresh outcome is returned. -/
theorem c5_clear_cache_resets (st : SysState) (k : QKey) (run : Except String DF) :
    (clear_cache st).1 = .ok "Cache cleared successfully." ∧
    (clear_cache st).2.cache = [] ∧
    (runQueryDf k run (clear_cache st).2).2.dbReads = (clear_cache st).2.dbReads + 1 ∧
    (runQueryDf k run (clear_cache st).2).1 = run := by
  refine ⟨rfl, rfl, ?_, ?_⟩ <;>
    cases run <;>
      simp [clear_cache, logCall, pushLog, runQueryDf, cachedQuery, lookupC, insertC]

/-- C4: a point lookup whose (company id, field, date) filter matches no
record returns, without raising, a 1x1 table whose message contains the
company id and the storage-normalized date. -/
theorem c4_point_lookup_no_match (cfg : Config) (db : Db) (a : PyVal) (q : ℚ)
    (field date_value : String) (st : SysState)
    (ha : a.isBlank = false) (hq : pyFloat a = .ok q)
    (hf : pyStrip field.data ≠ []) (hd : pyStrip date_value.data ≠ [])
    (hcol : db.hasCol field = true)
    (hcoh : ∀ v, lookupC st.cache (sqlPoint cfg field,
        [.int (truncInt q), .str (format_date_for_db date_value)]) = some v →
        v = pointDF db field (truncInt q) (format_date_for_db date_value))
    (hnone : pointRecs db (truncInt q) (format_date_for_db date_value) = []) :
    (get_daily_data cfg db a (some field) (some date_value) st).1 =
      .ok [[.str ("No data found for " ++ toString (truncInt q) ++ " on " ++
        format_date_for_db date_value)]] ∧
    (toString (truncInt q)).data <:+:
      ("No data found for " ++ toString (truncInt q) ++ " on " ++
        format_date_for_db date_value).data ∧
    (format_date_for_db date_value).data <:+:
      ("No data found for " ++ toString (truncInt q) ++ " on " ++
        format_date_for_db date_value).data := by
  refine ⟨?_, ?_, ?_⟩
  · rw [get_daily_data_spec cfg db a q field date_value st ha hq hf hd hcol hcoh]
    simp [pointDF, hnone]
  · exact ⟨"No data found for ".data,
      (" on " ++ format_date_for_db date_value).data,
      by simp [String.data_append]⟩
  · exact ⟨("No data found for " ++ toString (truncInt q) ++ " on ").data, [],
      by simp [String.data_append]⟩

/-- C4 witness. -/
theorem c4_witness :
    (get_daily_data defaultConfig dbW (.num 9) (some "pe") (some "2024-01-15")
      initState).1 = .ok [[.str "No data found for 9 on 2024-01-15"]] := by
  have h := (c4_point_lookup_no_match defaultConfig dbW (.num 9) 9 "pe" "2024-01-15"
    initState rfl (by with_unfolding_all rfl) (by decide) (by decide) (by decide)
    (by intro v hv; cases hv) (by with_unfolding_all decide)).1
  rw [h]
  with_unfolding_all rfl

/-- C10: when several records match the point lookup's (company id, date)
filter, the lookup returns a 1x1 table holding the requested field of the
first returned row only; the remaining matches are dropped. -/
theorem c10_point_lookup_first_row (cfg : Config) (db : Db) (a : PyVal) (q : ℚ)
    (field date_value : String) (st : SysState) (r0 : Record) (rest : List Record)
    (ha : a.isBlank = false) (hq : pyFloat a = .ok q)
    (hf : pyStrip field.data ≠ []) (hd : pyStrip date_value.data ≠ [])
    (hcol : db.hasCol field = true)
    (hcoh : ∀ v, lookupC st.cache (sqlPoint cfg field,
        [.int (truncInt q), .str (format_date_for_db date_value)]) = some v →
        v = pointDF db field (truncInt q) (format_date_for_db date_value))
    (hmatch : pointRecs db (truncInt q) (format_date_for_db date_value) = r0 :: rest) :
    (get_daily_data cfg db a (some field) (some date_value) st).1 =
      .ok [[getField r0 field]] := by
  rw [get_daily_data_spec cfg db a q field date_value st ha hq hf hd hcol hcoh]
  simp [pointDF, hmatch]

/-- C10 witness: two records match (same id, same date); the returned
cell is the first one's `pe`. -/
theorem c10_witness :
    (get_daily_data defaultConfig
      ⟨[], [⟨1001, "2024-01-15", "Acme", "Tech", "Large", 18, []⟩,
            ⟨1001, "2024-01-15", "Acme2", "Tech", "Large", 99, []⟩]⟩
      (.num 1001) (some "pe") (some "2024-01-15") initState).1 =
      .ok [[.num 18]] := by
  have h := c10_point_lookup_first_row defaultConfig
    ⟨[], [⟨1001, "2024-01-15", "Acme", "Tech", "Large", 18, []⟩,
          ⟨1001, "2024-01-15", "Acme2", "Tech", "Large", 99, []⟩]⟩
    (.num 1001) 1001 "pe" "2024-01-15" initState
    ⟨1001, "2024-01-15", "Acme", "Tech", "Large", 18, []⟩
    [⟨1001, "2024-01-15", "Acme2", "Tech", "Large", 99, []⟩]
    rfl (by with_unfolding_all rfl) (by decide) (by decide) (by decide)
    (by intro v hv; cases hv) (by with_unfolding_all decide)
  rw [h]
  with_unfolding_all rfl

/-- C2 (amended): `_validate_inputs` walks the named arguments in
declaration order and raises `Missing required input: <name>` for the
first blank one (so when exactly one argument is blank, the error names
that argument), before any SQL text is built or query executed: the
operation returns with the cache, read count and query log untouched,
the only state change being the decorator's outcome line. -/
theorem c2_amended :
    (∀ args : List (String × PyVal),
      validate args = (args.find? (fun p => p.2.isBlank)).map Prod.fst) ∧
    (∀ cfg db a f d st nm,
      validate [("accord_code", a), ("field", strArg f), ("date_value", strArg d)] = some nm →
      get_daily_data cfg db a f d st =
        (.error ("Missing required input: " ++ nm),
         pushLog st (.call "get_daily_data" false (some ("Missing required input: " ++ nm))))) ∧
    (∀ cfg db a f d1 d2 st nm,
      validate [("accord_code", a), ("field", strArg f), ("start_date", strArg d1),
        ("end_date", strArg d2)] = some nm →
      get_series cfg db a f d1 d2 st =
        (.error ("Missing required input: " ++ nm),
         pushLog st (.call "get_series" false (some ("Missing required input: " ++ nm))))) ∧
    (∀ cfg db d f st nm,
      validate [("date_value", strArg d), ("field", strArg f)] = some nm →
      get_daily_matrix cfg db d f st =
        (.error ("Missing required input: " ++ nm),
         pushLog st (.call "get_daily_matrix" false (some ("Missing required input: " ++ nm))))) ∧
    (∀ cfg db a f st nm,
      validate [("accord_code", a), ("field", strArg f)] = some nm →
      get_all_pe cfg db a f st =
        (.error ("Missing required input: " ++ nm),
         pushLog st (.call "get_all_pe" false (some ("Missing required input: " ++ nm))))) ∧
    (∀ cfg db b d st nm,
      validate [("mcap_category", strArg b), ("date_value", strArg d)] = some nm →
      get_mcap_matrix cfg db b d st =
        (.error ("Missing required input: " ++ nm),
         pushLog st (.call "get_mcap_matrix" false (some ("Missing required input: " ++ nm))))) ∧
    (∀ cfg db s d st nm,
      validate [("sector", strArg s), ("date_value", strArg d)] = some nm →
      get_pe_for_sector cfg db s d st =
        (.error ("Missing required input: " ++ nm),
         pushLog st (.call "get_pe_for_sector" false (some ("Missing required input: " ++ nm))))) := by
  refine ⟨?_, ?_, ?_, ?_, ?_, ?_, ?_⟩
  · intro args
    induction args with
    | nil => rfl
    | cons hd tl ih =>
      by_cases h : hd.2.isBlank <;>
        simp [validate, List.find?_cons, h, ih]
  all_goals
    intros
    rename_i hv
    exact logCall_error_of_body _ _ _ _ (by simp [hv])

/-- C2 counterexample: with `accord_code` and `field` both blank, the
point lookup raises `Missing required input: accord_code`, so the claim
instance for the blank argument `field` — which demands an error naming
`field` — fails. -/
theorem c2_counterexample :
    (get_daily_data defaultConfig dbW .none Option.none (some "2024-01-15") initState).1 =
      .error "Missing required input: accord_code" ∧
    (strArg (Option.none : Option String)).isBlank = true ∧
    "Missing required input: accord_code" ≠ "Missing required input: field" := by
  refine ⟨by with_unfolding_all rfl, rfl, by decide⟩

/-- C2 witness. -/
theorem c2_witness :
    get_daily_data defaultConfig dbW .none (some "pe") (some "2024-01-15") initState =
      (.error "Missing required input: accord_code",
       pushLog initState
         (.call "get_daily_data" false (some "Missing required input: accord_code"))) := by
  exact c2_amended.2.1 defaultConfig dbW .none (some "pe") (some "2024-01-15")
    initState "accord_code" rfl

/-! ### `int(float(...))` lemmas -/

lemma truncInt_eq_floor {q : ℚ} (h : 0 ≤ q) : truncInt q = ⌊q⌋ := by
  rw [Rat.floor_def]
  exact Int.tdiv_eq_ediv (Rat.num_nonneg.mpr h) (by exact_mod_cast Nat.zero_le q.den)

lemma truncInt_neg (q : ℚ) : truncInt (-q) = -truncInt q := by
  simp [truncInt, Rat.neg_num, Rat.neg_den, Int.neg_tdiv]

lemma truncInt_eq_ceil {q : ℚ} (h : q ≤ 0) : truncInt q = ⌈q⌉ := by
  have h2 : 0 ≤ -q := by linarith
  have h3 : truncInt (-q) = ⌊-q⌋ := truncInt_eq_floor h2
  rw [truncInt_neg q] at h3
  have h4 : truncInt q = -⌊-q⌋ := by omega
  rw [h4, Int.floor_neg]
  omega

lemma runQueryDf_ok_pair (k : QKey) (t : DF) (run : Except String DF) (st : SysState)
    (hrun : run = .ok t) :
    ∃ u, (runQueryDf k run st).1 = Except.ok u ∧
      (runQueryDf k run st).2.log = .query k.1 k.2 :: st.log := by
  subst hrun
  rcases hlk : lookupC st.cache k with _ | v
  · exact ⟨t, by simp [runQueryDf, cachedQuery, hlk, pushLog]⟩
  · exact ⟨v, by simp [runQueryDf, cachedQuery, hlk, pushLog]⟩

lemma get_daily_data_log (cfg : Config) (db : Db) (a : PyVal) (q : ℚ)
    (f d : String) (st : SysState)
    (ha : a.isBlank = false) (hq : pyFloat a = .ok q)
    (hf : pyStrip f.data ≠ []) (hd : pyStrip d.data ≠ [])
    (hcol : db.hasCol f = true) :
    (get_daily_data cfg db a (some f) (some d) st).2.log =
      .call "get_daily_data" true Option.none ::
      .query (sqlPoint cfg f) [.int (truncInt q), .str (format_date_for_db d)] ::
      st.log := by
  obtain ⟨u, hu1, hu2⟩ := runQueryDf_ok_pair
    (sqlPoint cfg f, [.int (truncInt q), .str (format_date_for_db d)])
    (pointDF db f (truncInt q) (format_date_for_db d))
    (queryPoint db f (truncInt q) (format_date_for_db d)) st
    (by simp [queryPoint, hcol])
  rcases hR : runQueryDf (sqlPoint cfg f, [.int (truncInt q), .str (format_date_for_db d)])
      (queryPoint db f (truncInt q) (format_date_for_db d)) st with ⟨r, st1⟩
  rw [hR] at hu1 hu2
  have hr : r = .ok u := hu1
  subst hr
  have hlog : st1.log =
      .query (sqlPoint cfg f) [.int (truncInt q), .str (format_date_for_db d)] ::
      st.log := hu2
  simp only [get_daily_data]
  rw [logCall_log]
  simp only [validate, ha, strArg_not_blank hf, strArg_not_blank hd,
    Bool.false_eq_true, if_false, hq, Option.getD_some, hR]
  by_cases hc : u.rows = [] <;> simp [hc, pushLog, hlog]

lemma get_series_log (cfg : Config) (db : Db) (a : PyVal) (q : ℚ)
    (f d1 d2 : String) (st : SysState)
    (ha : a.isBlank = false) (hq : pyFloat a = .ok q)
    (hf : pyStrip f.data ≠ []) (hd1 : pyStrip d1.data ≠ []) (hd2 : pyStrip d2.data ≠ [])
    (hcol : db.hasCol f = true) :
    (get_series cfg db a (some f) (some d1) (some d2) st).2.log =
      .call "get_series" true Option.none ::
      .query (sqlSeries cfg f)
        [.int (truncInt q), .str (format_date_for_db d1), .str (format_date_for_db d2)] ::
      st.log := by
  obtain ⟨u, hu1, hu2⟩ := runQueryDf_ok_pair
    (sqlSeries cfg f,
      [.int (truncInt q), .str (format_date_for_db d1), .str (format_date_for_db d2)])
    (seriesDF db f (truncInt q) (format_date_for_db d1) (format_date_for_db d2))
    (querySeries db f (truncInt q) (format_date_for_db d1) (format_date_for_db d2)) st
    (by simp [querySeries, hcol])
  rcases hR : runQueryDf (sqlSeries cfg f,
      [.int (truncInt q), .str (format_date_for_db d1), .str (format_date_for_db d2)])
      (querySeries db f (truncInt q) (format_date_for_db d1) (format_date_for_db d2)) st
      with ⟨r, st1⟩
  rw [hR] at hu1 hu2
  have hr : r = .ok u := hu1
  subst hr
  have hlog : st1.log = .query (sqlSeries cfg f)
      [.int (truncInt q), .str (format_date_for_db d1), .str (format_date_for_db d2)] ::
      st.log := hu2
  simp only [get_series]
  rw [logCall_log]
  simp only [validate, ha, strArg_not_blank hf, strArg_not_blank hd1,
    strArg_not_blank hd2, Bool.false_eq_true, if_false, hq, Option.getD_some, hR]
  by_cases hc : u.rows = [] <;> simp [hc, pushLog, hlog]

lemma get_all_pe_log (cfg : Config) (db : Db) (a : PyVal) (q : ℚ)
    (f : String) (st : SysState)
    (ha : a.isBlank = false) (hq : pyFloat a = .ok q)
    (hf : pyStrip f.data ≠ []) (hcol : db.hasCol f = true) :
    (get_all_pe cfg db a (some f) st).2.log =
      .call "get_all_pe" true Option.none ::
      .query (sqlAllPe cfg f) [.int (truncInt q)] :: st.log := by
  obtain ⟨u, hu1, hu2⟩ := runQueryDf_ok_pair
    (sqlAllPe cfg f, [.int (truncInt q)])
    (allPeDF db f (truncInt q))
    (queryAllPe db f (truncInt q)) st (by simp [queryAllPe, hcol])
  rcases hR : runQueryDf (sqlAllPe cfg f, [.int (truncInt q)])
      (queryAllPe db f (truncInt q)) st with ⟨r, st1⟩
  rw [hR] at hu1 hu2
  have hr : r = .ok u := hu1
  subst hr
  have hlog : st1.log = .query (sqlAllPe cfg f) [.int (truncInt q)] :: st.log := hu2
  simp only [get_all_pe]
  rw [logCall_log]
  simp only [validate, ha, strArg_not_blank hf, Bool.false_eq_true, if_false,
    hq, Option.getD_some, hR]
  by_cases hc : u.rows = [] <;> simp [hc, pushLog, hlog]

/-- C9: for the three operations taking a company identifier, a non-blank
identifier that is not numeric text makes `float()` raise its conversion
error (not the missing-input error) before any SQL is built — the state
keeps its cache, read count and query log, gaining only the decorator's
outcome line; and a numeric identifier is truncated toward zero
(`⌊q⌋` for nonnegative, `⌈q⌉` for nonpositive values) before being bound
as the query parameter, as the parameter tuple of the logged query
shows. -/
theorem c9_identifier_conversion :
    (∀ q : ℚ, 0 ≤ q → truncInt q = ⌊q⌋) ∧
    (∀ q : ℚ, q ≤ 0 → truncInt q = ⌈q⌉) ∧
    (∀ cfg db (s f d : String) st, pyStrip s.data ≠ [] →
      parseFloat (pyStrip s.data) = Option.none →
      pyStrip f.data ≠ [] → pyStrip d.data ≠ [] →
      get_daily_data cfg db (.str s) (some f) (some d) st =
        (.error ("could not convert string to float: '" ++ s ++ "'"),
         pushLog st (.call "get_daily_data" false
           (some ("could not convert string to float: '" ++ s ++ "'"))))) ∧
    (∀ cfg db (s f d1 d2 : String) st, pyStrip s.data ≠ [] →
      parseFloat (pyStrip s.data) = Option.none →
      pyStrip f.data ≠ [] → pyStrip d1.data ≠ [] → pyStrip d2.data ≠ [] →
      get_series cfg db (.str s) (some f) (some d1) (some d2) st =
        (.error ("could not convert string to float: '" ++ s ++ "'"),
         pushLog st (.call "get_series" false
           (some ("could not convert string to float: '" ++ s ++ "'"))))) ∧
    (∀ cfg db (s f : String) st, pyStrip s.data ≠ [] →
      parseFloat (pyStrip s.data) = Option.none →
      pyStrip f.data ≠ [] →
      get_all_pe cfg db (.str s) (some f) st =
        (.error ("could not convert string to float: '" ++ s ++ "'"),
         pushLog st (.call "get_all_pe" false
           (some ("could not convert string to float: '" ++ s ++ "'"))))) ∧
    (∀ cfg db (a : PyVal) (q : ℚ) (f d : String) st,
      a.isBlank = false → pyFloat a = .ok q →
      pyStrip f.data ≠ [] → pyStrip d.data ≠ [] → db.hasCol f = true →
      (get_daily_data cfg db a (some f) (some d) st).2.log =
        .call "get_daily_data" true Option.none ::
        .query (sqlPoint cfg f) [.int (truncInt q), .str (format_date_for_db d)] ::
        st.log) ∧
    (∀ cfg db (a : PyVal) (q : ℚ) (f d1 d2 : String) st,
      a.isBlank = false → pyFloat a = .ok q →
      pyStrip f.data ≠ [] → pyStrip d1.data ≠ [] → pyStrip d2.data ≠ [] →
      db.hasCol f = true →
      (get_series cfg db a (some f) (some d1) (some d2) st).2.log =
        .call "get_series" true Option.none ::
        .query (sqlSeries cfg f)
          [.int (truncInt q), .str (format_date_for_db d1), .str (format_date_for_db d2)] ::
        st.log) ∧
    (∀ cfg db (a : PyVal) (q : ℚ) (f : String) st,
      a.isBlank = false → pyFloat a = .ok q →
      pyStrip f.data ≠ [] → db.hasCol f = true →
      (get_all_pe cfg db a (some f) st).2.log =
        .call "get_all_pe" true Option.none ::
        .query (sqlAllPe cfg f) [.int (truncInt q)] :: st.log) := by
  refine ⟨fun q h => truncInt_eq_floor h, fun q h => truncInt_eq_ceil h,
    ?_, ?_, ?_, ?_, ?_, ?_⟩
  · intro cfg db s f d st hs hp hf hd
    refine logCall_error_of_body _ _ _ _ ?_
    simp [validate, PyVal.isBlank, strArg, hs, hf, hd, pyFloat, hp]
  · intro cfg db s f d1 d2 st hs hp hf hd1 hd2
    refine logCall_error_of_body _ _ _ _ ?_
    simp [validate, PyVal.isBlank, strArg, hs, hf, hd1, hd2, pyFloat, hp]
  · intro cfg db s f st hs hp hf
    refine logCall_error_of_body _ _ _ _ ?_
    simp [validate, PyVal.isBlank, strArg, hs, hf, pyFloat, hp]
  · intro cfg db a q f d st ha hq hf hd hcol
    exact get_daily_data_log cfg db a q f d st ha hq hf hd hcol
  · intro cfg db a q f d1 d2 st ha hq hf hd1 hd2 hcol
    exact get_series_log cfg db a q f d1 d2 st ha hq hf hd1 hd2 hcol
  · intro cfg db a q f st ha hq hf hcol
    exact get_all_pe_log cfg db a q f st ha hq hf hcol

/-- C9 witness. -/
theorem c9_witness :
    truncInt (25 / 2 : ℚ) = ⌊(25 / 2 : ℚ)⌋ ∧
    truncInt (-(25 / 2) : ℚ) = ⌈(-(25 / 2) : ℚ)⌉ ∧
    get_daily_data defaultConfig dbW (.str "zzz") (some "pe") (some "2024-01-15") initState =
      (.error "could not convert string to float: 'zzz'",
       pushLog initState (.call "get_daily_data" false
         (some "could not convert string to float: 'zzz'"))) ∧
    (get_daily_data defaultConfig dbW (.num (25 / 2)) (some "pe") (some "2024-01-15")
        initState).2.log =
      [.call "get_daily_data" true Option.none,
       .query (sqlPoint defaultConfig "pe") [.int 12, .str "2024-01-15"]] ∧
    truncInt (25 / 2 : ℚ) = 12 := by
  refine ⟨c9_identifier_conversion.1 _ (by norm_num),
    c9_identifier_conversion.2.1 _ (by norm_num),
    ?_, ?_, by with_unfolding_all decide⟩
  · exact c9_identifier_conversion.2.2.1 defaultConfig dbW "zzz" "pe" "2024-01-15"
      initState (by decide) (by with_unfolding_all decide) (by decide) (by decide)
  · have h := c9_identifier_conversion.2.2.2.2.2.1 defaultConfig dbW
      (.num (25 / 2)) (25 / 2) "pe" "2024-01-15" initState rfl
      (by with_unfolding_all rfl) (by decide) (by decide) (by decide)
    rw [h]
    with_unfolding_all rfl

/-! ### Sortedness of the ranking queries -/

lemma sortByPeDesc_sorted (l : List Record) :
    List.Sorted (fun r1 r2 => r2.pe ≤ r1.pe) (sortByPeDesc l) := by
  haveI : IsTotal Record (fun r1 r2 => r2.pe ≤ r1.pe) := ⟨fun a b => le_total b.pe a.pe⟩
  haveI : IsTrans Record (fun r1 r2 => r2.pe ≤ r1.pe) :=
    ⟨fun a b c hab hbc => le_trans hbc hab⟩
  exact List.sorted_insertionSort _ _

lemma mcapRecs_pe_sorted (db : Db) (b fd : String) :
    List.Sorted (fun x y : ℚ => y ≤ x) ((mcapRecs db b fd).map Record.pe) := by
  rw [List.Sorted, List.pairwise_map]
  exact sortByPeDesc_sorted _

lemma sectorRecs_pe_sorted (db : Db) (sec fd : String) :
    List.Sorted (fun x y : ℚ => y ≤ x) ((sectorRecs db sec fd).map Record.pe) := by
  rw [List.Sorted, List.pairwise_map]
  exact sortByPeDesc_sorted _

/-- C6: on a non-empty result, each ranking operation returns every row's
date cell as the constant storage-normalized queried date — injected,
not read from any per-row database date column (the projected columns
carry no date) — with the rows ordered by price-earnings value
descending. -/
theorem c6_rankings_constant_date_pe_desc :
    (∀ cfg db (bucket date_value : String) st,
      pyStrip bucket.data ≠ [] → pyStrip date_value.data ≠ [] →
      (∀ v, lookupC st.cache (sqlMcap cfg,
          [.str bucket, .str (format_date_for_db date_value)]) = some v →
          v = queryMcap db bucket (format_date_for_db date_value)) →
      mcapRecs db bucket (format_date_for_db date_value) ≠ [] →
      (get_mcap_matrix cfg db (some bucket) (some date_value) st).1 =
        .ok ((["accord_code", "company_name", "sector", "pe", "date"].map Value.str) ::
          (mcapRecs db bucket (format_date_for_db date_value)).map (fun r =>
            [.int r.accord_code, .str r.company_name, .str r.sector, .num r.pe,
             .str (format_date_for_db date_value)])) ∧
      List.Sorted (fun x y : ℚ => y ≤ x)
        ((mcapRecs db bucket (format_date_for_db date_value)).map Record.pe)) ∧
    (∀ cfg db (sec date_value : String) st,
      pyStrip sec.data ≠ [] → pyStrip date_value.data ≠ [] →
      (∀ v, lookupC st.cache (sqlSector cfg,
          [.str sec, .str (format_date_for_db date_value)]) = some v →
          v = querySector db sec (format_date_for_db date_value)) →
      sectorRecs db sec (format_date_for_db date_value) ≠ [] →
      (get_pe_for_sector cfg db (some sec) (some date_value) st).1 =
        .ok ((["accord_code", "company_name", "mcap_category", "pe"]
            ++ ["date"]).map Value.str ::
          (sectorRecs db sec (format_date_for_db date_value)).map (fun r =>
            [.int r.accord_code, .str r.company_name, .str r.mcap_category, .num r.pe,
             .str (format_date_for_db date_value)])) ∧
      List.Sorted (fun x y : ℚ => y ≤ x)
        ((sectorRecs db sec (format_date_for_db date_value)).map Record.pe)) := by
  constructor
  · intro cfg db bucket date_value st hb hd hcoh hne
    refine ⟨?_, mcapRecs_pe_sorted db bucket (format_date_for_db date_value)⟩
    rw [get_mcap_matrix_spec cfg db bucket date_value st hb hd hcoh]
    simp [queryMcap, hne, List.map_map, Function.comp]
  · intro cfg db sec date_value st hs hd hcoh hne
    refine ⟨?_, sectorRecs_pe_sorted db sec (format_date_for_db date_value)⟩
    rw [get_pe_for_sector_spec cfg db sec date_value st hs hd hcoh]
    simp [querySector, hne, List.map_map, Function.comp]

/-- C6 witness: two records match; the higher `pe` comes first and each
row carries the queried date. -/
theorem c6_witness :
    (get_mcap_matrix defaultConfig dbW (some "Large") (some "2024-01-15") initState).1 =
      .ok [[.str "accord_code", .str "company_name", .str "sector", .str "pe", .str "date"],
           [.int 1002, .str "Bolt", .str "Tech", .num 25, .str "2024-01-15"],
           [.int 1001, .str "Acme", .str "Tech", .num 18, .str "2024-01-15"]] ∧
    List.Sorted (fun x y : ℚ => y ≤ x)
      ((mcapRecs dbW "Large" (format_date_for_db "2024-01-15")).map Record.pe) := by
  have h := c6_rankings_constant_date_pe_desc.1 defaultConfig dbW "Large" "2024-01-15"
    initState (by decide) (by decide) (by intro v hv; cases hv)
    (by with_unfolding_all decide)
  refine ⟨?_, h.2⟩
  rw [h.1]
  with_unfolding_all rfl

/-- C1 (amended): on a non-empty result, the series, cross-sectional
matrix and full-history operations return a header row of the projected
column names followed by one row per record, with the date column (when
projected) rendered via the display-form conversion; the two ranking
operations return a header row followed by one row per record whose date
column is the storage-normalized queried date, not passed through the
display-form conversion; and the point lookup returns a single cell with
no header row. -/
theorem c1_amended :
    (∀ cfg db (a : PyVal) (q : ℚ) (field start_date end_date : String) st,
      a.isBlank = false → pyFloat a = .ok q →
      pyStrip field.data ≠ [] → pyStrip start_date.data ≠ [] →
      pyStrip end_date.data ≠ [] → db.hasCol field = true →
      (∀ v, lookupC st.cache (sqlSeries cfg field,
          [.int (truncInt q), .str (format_date_for_db start_date),
           .str (format_date_for_db end_date)]) = some v →
          v = seriesDF db field (truncInt q) (format_date_for_db start_date)
                (format_date_for_db end_date)) →
      field ≠ "date" →
      seriesRecs db (truncInt q) (format_date_for_db start_date)
        (format_date_for_db end_date) ≠ [] →
      (get_series cfg db a (some field) (some start_date) (some end_date) st).1 =
        .ok ([.str "date", .str field] ::
          (seriesRecs db (truncInt q) (format_date_for_db start_date)
            (format_date_for_db end_date)).map (fun r =>
              [.str (format_date_for_excel cfg r.date), getField r field]))) ∧
    (∀ cfg db (date_value field : String) st,
      pyStrip date_value.data ≠ [] → pyStrip field.data ≠ [] →
      db.hasCol field = true →
      (∀ v, lookupC st.cache (sqlMatrix cfg field,
          [.str (format_date_for_db date_value)]) = some v →
          v = matrixDF db field (format_date_for_db date_value)) →
      field ≠ "date" →
      matrixRecs db (format_date_for_db date_value) ≠ [] →
      (get_daily_matrix cfg db (some date_value) (some field) st).1 =
        .ok ([.str "accord_code", .str "company_name", .str "sector",
              .str "mcap_category", .str field] ::
          (matrixRecs db (format_date_for_db date_value)).map (fun r =>
            [.int r.accord_code, .str r.company_name, .str r.sector,
             .str r.mcap_category, getField r field]))) ∧
    (∀ cfg db (a : PyVal) (q : ℚ) (field : String) st,
      a.isBlank = false → pyFloat a = .ok q →
      pyStrip field.data ≠ [] → db.hasCol field = true →
      (∀ v, lookupC st.cache (sqlAllPe cfg field, [.int (truncInt q)]) = some v →
          v = allPeDF db field (truncInt q)) →
      field ≠ "date" →
      allPeRecs db (truncInt q) ≠ [] →
      (get_all_pe cfg db a (some field) st).1 =
        .ok ([.str "date", .str field] ::
          (allPeRecs db (truncInt q)).map (fun r =>
            [.str (format_date_for_excel cfg r.date), getField r field]))) ∧
    (∀ cfg db (bucket date_value : String) st,
      pyStrip bucket.data ≠ [] → pyStrip date_value.data ≠ [] →
      (∀ v, lookupC st.cache (sqlMcap cfg,
          [.str bucket, .str (format_date_for_db date_value)]) = some v →
          v = queryMcap db bucket (format_date_for_db date_value)) →
      mcapRecs db bucket (format_date_for_db date_value) ≠ [] →
      (get_mcap_matrix cfg db (some bucket) (some date_value) st).1 =
        .ok ([.str "accord_code", .str "company_name", .str "sector", .str "pe",
              .str "date"] ::
          (mcapRecs db bucket (format_date_for_db date_value)).map (fun r =>
            [.int r.accord_code, .str r.company_name, .str r.sector, .num r.pe,
             .str (format_date_for_db date_value)]))) ∧
    (∀ cfg db (sec date_value : String) st,
      pyStrip sec.data ≠ [] → pyStrip date_value.data ≠ [] →
      (∀ v, lookupC st.cache (sqlSector cfg,
          [.str sec, .str (format_date_for_db date_value)]) = some v →
          v = querySector db sec (format_date_for_db date_value)) →
      sectorRecs db sec (format_date_for_db date_value) ≠ [] →
      (get_pe_for_sector cfg db (some sec) (some date_value) st).1 =
        .ok ([.str "accord_code", .str "company_name", .str "mcap_category", .str "pe",
              .str "date"] ::
          (sectorRecs db sec (format_date_for_db date_value)).map (fun r =>
            [.int r.accord_code, .str r.company_name, .str r.mcap_category, .num r.pe,
             .str (format_date_for_db date_value)]))) ∧
    (∀ cfg db (a : PyVal) (q : ℚ) (field date_value : String) st r0 rest,
      a.isBlank = false → pyFloat a = .ok q →
      pyStrip field.data ≠ [] → pyStrip date_value.data ≠ [] →
      db.hasCol field = true →
      (∀ v, lookupC st.cache (sqlPoint cfg field,
          [.int (truncInt q), .str (format_date_for_db date_value)]) = some v →
          v = pointDF db field (truncInt q) (format_date_for_db date_value)) →
      pointRecs db (truncInt q) (format_date_for_db date_value) = r0 :: rest →
      (get_daily_data cfg db a (some field) (some date_value) st).1 =
        .ok [[getField r0 field]]) := by
  refine ⟨?_, ?_, ?_, ?_, ?_, ?_⟩
  · intro cfg db a q field d1 d2 st ha hq hf hd1 hd2 hcol hcoh hfd hne
    rw [get_series_spec cfg db a q field d1 d2 st ha hq hf hd1 hd2 hcol hcoh]
    simp [seriesDF, hne, headerRow, mapDateCol, List.findIdx_cons, List.map_map,
      Function.comp, dateDisplay]
  · intro cfg db dv field st hd hf hcol hcoh hfd hne
    have hfd2 : ¬ (("date" : String) = field) := fun h => hfd h.symm
    rw [get_daily_matrix_spec cfg db dv field st hd hf hcol hcoh]
    simp [matrixDF, hne, headerRow, hfd2]
  · intro cfg db a q field st ha hq hf hcol hcoh hfd hne
    rw [get_all_pe_spec cfg db a q field st ha hq hf hcol hcoh]
    simp [allPeDF, hne, headerRow, mapDateCol, List.findIdx_cons, List.map_map,
      Function.comp, dateDisplay]
  · intro cfg db bucket dv st hb hd hcoh hne
    rw [get_mcap_matrix_spec cfg db bucket dv st hb hd hcoh]
    simp [queryMcap, hne, List.map_map, Function.comp]
  · intro cfg db sec dv st hs hd hcoh hne
    rw [get_pe_for_sector_spec cfg db sec dv st hs hd hcoh]
    simp [querySector, hne, List.map_map, Function.comp]
  · intro cfg db a q field dv st r0 rest ha hq hf hd hcol hcoh hmatch
    rw [get_daily_data_spec cfg db a q field dv st ha hq hf hd hcol hcoh]
    simp [pointDF, hmatch]

/-- C1 counterexample: under display format `%d/%m/%Y`, the ranking
operation's rows carry the storage-form date `2024-01-15`, not its
display form `15/01/2024`; and a non-empty point lookup returns one lone
cell — no header row precedes the data. -/
theorem c1_counterexample :
    (get_mcap_matrix cfgDMY dbW (some "Large") (some "2024-01-15") initState).1 =
      .ok [[.str "accord_code", .str "company_name", .str "sector", .str "pe",
            .str "date"],
           [.int 1002, .str "Bolt", .str "Tech", .num 25, .str "2024-01-15"],
           [.int 1001, .str "Acme", .str "Tech", .num 18, .str "2024-01-15"]] ∧
    format_date_for_excel cfgDMY "2024-01-15" = "15/01/2024" ∧
    ("2024-01-15" : String) ≠ "15/01/2024" ∧
    (get_daily_data cfgDMY dbW (.num 1001) (some "pe") (some "2024-01-15")
      initState).1 = .ok [[.num 18]] := by
  exact ⟨by with_unfolding_all rfl, by decide, by decide, by with_unfolding_all rfl⟩

/-- C1 witness. -/
theorem c1_witness :
    (get_series defaultConfig dbW (.num 1001) (some "pe") (some "2024-01-01")
        (some "2024-12-31") initState).1 =
      .ok [[.str "date", .str "pe"], [.str "2024-01-15", .num 18]] ∧
    (get_daily_matrix defaultConfig dbW (some "2024-01-15") (some "pe") initState).1 =
      .ok [[.str "accord_code", .str "company_name", .str "sector",
            .str "mcap_category", .str "pe"],
           [.int 1001, .str "Acme", .str "Tech", .str "Large", .num 18],
           [.int 1002, .str "Bolt", .str "Tech", .str "Large", .num 25]] ∧
    (get_all_pe defaultConfig dbW (.num 1003) (some "pe") initState).1 =
      .ok [[.str "date", .str "pe"], [.str "2024-01-10", .num 7]] ∧
    (get_pe_for_sector defaultConfig dbW (some "Tech") (some "2024-01-15")
        initState).1 =
      .ok [[.str "accord_code", .str "company_name", .str "mcap_category", .str "pe",
            .str "date"],
           [.int 1002, .str "Bolt", .str "Large", .num 25, .str "2024-01-15"],
           [.int 1001, .str "Acme", .str "Large", .num 18, .str "2024-01-15"]] ∧
    (get_daily_data defaultConfig dbW (.num 1001) (some "pe") (some "2024-01-15")
      initState).1 = .ok [[.num 18]] := by
  refine ⟨?_, ?_, ?_, ?_, ?_⟩
  · have h := c1_amended.1 defaultConfig dbW (.num 1001) 1001 "pe" "2024-01-01"
      "2024-12-31" initState rfl (by with_unfolding_all rfl) (by decide) (by decide)
      (by decide) (by decide) (by intro v hv; cases hv) (by decide)
      (by with_unfolding_all decide)
    rw [h]
    with_unfolding_all rfl
  · have h := c1_amended.2.1 defaultConfig dbW "2024-01-15" "pe" initState
      (by decide) (by decide) (by decide) (by intro v hv; cases hv) (by decide)
      (by with_unfolding_all decide)
    rw [h]
    with_unfolding_all rfl
  · have h := c1_amended.2.2.1 defaultConfig dbW (.num 1003) 1003 "pe" initState
      rfl (by with_unfolding_all rfl) (by decide) (by decide)
      (by intro v hv; cases hv) (by decide) (by with_unfolding_all decide)
    rw [h]
    with_unfolding_all rfl
  · have h := c1_amended.2.2.2.2.1 defaultConfig dbW "Tech" "2024-01-15" initState
      (by decide) (by decide) (by intro v hv; cases hv) (by with_unfolding_all decide)
    rw [h]
    with_unfolding_all rfl
  · have h := c1_amended.2.2.2.2.2 defaultConfig dbW (.num 1001) 1001 "pe"
      "2024-01-15" initState ⟨1001, "2024-01-15", "Acme", "Tech", "Large", 18, []⟩ []
      rfl (by with_unfolding_all rfl) (by decide) (by decide) (by decide)
      (by intro v hv; cases hv) (by with_unfolding_all decide)
    rw [h]
    with_unfolding_all rfl

/-! ### LRU retention: a cached key survives fewer than 128 intervening
queries -/

lemma runQueryDf_cache (k : QKey) (run : Except String DF) (st : SysState) :
    (runQueryDf k run st).2.cache = (cachedQuery k run st).2.cache := by
  rcases h : cachedQuery k run st with ⟨r, st1⟩
  rcases r with v | e <;> simp [runQueryDf, h, pushLog]

lemma cachedQuery_step (j : QKey) (run : Except String DF) (st : SysState)
    (front back : List (QKey × DF)) (k : QKey) (t : DF)
    (hc : st.cache = front ++ (k, t) :: back)
    (hn : keysNodup st.cache)
    (hl : st.cache.length ≤ MAXSIZE)
    (hfl : front.length + 1 ≤ MAXSIZE - 1)
    (hj : j ≠ k) :
    ∃ front2 back2, (runQueryDf j run st).2.cache = front2 ++ (k, t) :: back2 ∧
      keysNodup (runQueryDf j run st).2.cache ∧
      (runQueryDf j run st).2.cache.length ≤ MAXSIZE ∧
      front2.length ≤ front.length + 1 := by
  rw [runQueryDf_cache]
  rcases hlk : lookupC st.cache j with _ | v
  · rcases run with e | tj
    · have hcc : (cachedQuery j (Except.error e) st).2.cache = st.cache := by
        simp [cachedQuery, hlk]
      rw [hcc]
      exact ⟨front, back, hc, hn, hl, by omega⟩
    · have hjmem := lookupC_none_not_mem hlk
      have hcc : (cachedQuery j (Except.ok tj) st).2.cache = insertC st.cache j tj := by
        simp [cachedQuery, hlk]
      rw [hcc]
      by_cases hfull : st.cache.length < MAXSIZE
      · have hi : insertC st.cache j tj = (j, tj) :: st.cache := by
          rw [insertC, if_pos hfull]
        rw [hi]
        refine ⟨(j, tj) :: front, back, by rw [hc]; rfl, ?_, ?_, by simp⟩
        · simp only [keysNodup, List.map_cons, List.nodup_cons]
          refine ⟨?_, hn⟩
          intro hmem
          rcases List.mem_map.mp hmem with ⟨e2, he, hek⟩
          exact hjmem e2 he hek
        · simp only [List.length_cons]
          omega
      · have hlen128 : st.cache.length = MAXSIZE := by omega
        have hi : insertC st.cache j tj = (j, tj) :: st.cache.dropLast := by
          rw [insertC, if_neg hfull]
        have hblen : front.length + 1 + back.length = MAXSIZE := by
          rw [hc] at hlen128
          simp only [List.length_append, List.length_cons] at hlen128
          omega
        rcases back with _ | ⟨b1, back1⟩
        · exfalso
          simp at hblen
          omega
        · rw [hi]
          have hdrop : st.cache.dropLast = front ++ (k, t) :: (b1 :: back1).dropLast := by
            rw [hc, List.dropLast_append_cons, List.dropLast_cons₂]
          refine ⟨(j, tj) :: front, (b1 :: back1).dropLast, by rw [hdrop]; rfl, ?_, ?_,
            by simp⟩
          · simp only [keysNodup, List.map_cons, List.nodup_cons]
            constructor
            · intro hmem
              rcases List.mem_map.mp hmem with ⟨e2, he, hek⟩
              exact hjmem e2 (st.cache.dropLast_sublist.mem he) hek
            · exact List.Nodup.sublist (st.cache.dropLast_sublist.map Prod.fst) hn
          · simp only [List.length_cons]
            have := st.cache.length_dropLast
            omega
  · have hcc : (cachedQuery j run st).2.cache = (j, v) :: removeKey st.cache j := by
      simp [cachedQuery, hlk]
    rw [hcc]
    have hrk : removeKey st.cache j = removeKey front j ++ (k, t) :: removeKey back j := by
      rw [hc, removeKey_append]
      have h2 : removeKey ((k, t) :: back) j = (k, t) :: removeKey back j := by
        have hkj : ¬ (k = j) := fun h => hj h.symm
        simp [removeKey, hkj]
      rw [h2]
    refine ⟨(j, v) :: removeKey front j, removeKey back j, by rw [hrk]; rfl, ?_, ?_, ?_⟩
    · simp only [keysNodup, List.map_cons, List.nodup_cons]
      constructor
      · intro hmem
        rcases List.mem_map.mp hmem with ⟨e2, he, hek⟩
        exact removeKey_not_mem st.cache j e2 he hek
      · exact List.Nodup.sublist ((removeKey_sublist st.cache j).map Prod.fst) hn
    · simp only [List.length_cons]
      have := lookupC_some_length hlk
      omega
    · simp only [List.length_cons]
      have : (removeKey front j).length ≤ front.length :=
        (removeKey_sublist front j).length_le
      omega

lemma lru_preserved : ∀ (steps : List (QKey × Except String DF)) (st : SysState)
    (front back : List (QKey × DF)) (k : QKey) (t : DF),
    st.cache = front ++ (k, t) :: back →
    keysNodup st.cache →
    st.cache.length ≤ MAXSIZE →
    front.length + steps.length ≤ MAXSIZE - 1 →
    (∀ p ∈ steps, p.1 ≠ k) →
    ∃ front2 back2, (runSeq steps st).cache = front2 ++ (k, t) :: back2 ∧
      keysNodup (runSeq steps st).cache ∧
      (runSeq steps st).cache.length ≤ MAXSIZE ∧
      front2.length ≤ front.length + steps.length := by
  intro steps
  induction steps with
  | nil =>
    intro st front back k t hc hn hl hb hj
    exact ⟨front, back, hc, hn, hl, by omega⟩
  | cons s rest ih =>
    intro st front back k t hc hn hl hb hj
    have hjk : s.1 ≠ k := hj s (by simp)
    have hb1 : front.length + 1 ≤ MAXSIZE - 1 := by
      simp only [List.length_cons] at hb
      omega
    obtain ⟨f1, b1, h1, h2, h3, h4⟩ :=
      cachedQuery_step s.1 s.2 st front back k t hc hn hl hb1 hjk
    have hb2 : f1.length + rest.length ≤ MAXSIZE - 1 := by
      simp only [List.length_cons] at hb
      omega
    obtain ⟨f2, b2, g1, g2, g3, g4⟩ := ih (runQueryDf s.1 s.2 st).2 f1 b1 k t
      h1 h2 h3 hb2 (fun p hp => hj p (by simp [hp]))
    refine ⟨f2, b2, g1, g2, g3, ?_⟩
    simp only [List.length_cons]
    omega

/-- C3 (amended): for any (SQL text, parameter tuple) key, if a query
with that key succeeds and at most 127 further queries — none with that
key, and no cache clear — run before the key is queried again, the second
call returns the very table stored by the first without reading the data
file, and both calls emit the per-query log line.  (With 128 or more
intervening queries the entry can be evicted from the 128-entry memo, as
the counterexample shows.) -/
theorem c3_amended (k : QKey) (run1 run2 : Except String DF) (t : DF)
    (steps : List (QKey × Except String DF)) (st0 : SysState)
    (hn : keysNodup st0.cache) (hl : st0.cache.length ≤ MAXSIZE)
    (hsteps : ∀ p ∈ steps, p.1 ≠ k) (hcount : steps.length ≤ MAXSIZE - 1)
    (h1 : (runQueryDf k run1 st0).1 = .ok t) :
    (runQueryDf k run2 (runSeq steps (runQueryDf k run1 st0).2)).1 = .ok t ∧
    (runQueryDf k run2 (runSeq steps (runQueryDf k run1 st0).2)).2.dbReads =
      (runSeq steps (runQueryDf k run1 st0).2).dbReads ∧
    (runQueryDf k run2 (runSeq steps (runQueryDf k run1 st0).2)).2.log =
      .query k.1 k.2 :: (runSeq steps (runQueryDf k run1 st0).2).log ∧
    (runQueryDf k run1 st0).2.log = .query k.1 k.2 :: st0.log := by
  have hst1 : ∃ c1, (runQueryDf k run1 st0).2.cache = (k, t) :: c1 ∧
      keysNodup ((k, t) :: c1) ∧ ((k, t) :: c1).length ≤ MAXSIZE ∧
      (runQueryDf k run1 st0).2.log = .query k.1 k.2 :: st0.log := by
    rcases hlk : lookupC st0.cache k with _ | v
    · rcases hr1 : run1 with e | t1
      · exfalso
        subst hr1
        simp [runQueryDf, cachedQuery, hlk] at h1
      · subst hr1
        have ht : t1 = t := by
          simp [runQueryDf, cachedQuery, hlk] at h1
          exact h1
        subst ht
        have hknot := lookupC_none_not_mem hlk
        refine ⟨(if st0.cache.length < MAXSIZE then st0.cache else st0.cache.dropLast),
          ?_, ?_, ?_, ?_⟩
        · simp [runQueryDf, cachedQuery, hlk, pushLog, insertC]
        · simp only [keysNodup, List.map_cons, List.nodup_cons]
          constructor
          · intro hmem
            rcases List.mem_map.mp hmem with ⟨e, he, hek⟩
            by_cases hfull : st0.cache.length < MAXSIZE
            · rw [if_pos hfull] at he
              exact hknot e he hek
            · rw [if_neg hfull] at he
              exact hknot e (st0.cache.dropLast_sublist.mem he) hek
          · by_cases hfull : st0.cache.length < MAXSIZE
            · rw [if_pos hfull]; exact hn
            · rw [if_neg hfull]
              exact List.Nodup.sublist (st0.cache.dropLast_sublist.map Prod.fst) hn
        · by_cases hfull : st0.cache.length < MAXSIZE
          · rw [if_pos hfull]
            simp only [List.length_cons]
            omega
          · rw [if_neg hfull]
            simp only [List.length_cons]
            have hdl := st0.cache.length_dropLast
            have hms : MAXSIZE = 128 := rfl
            omega
        · simp [runQueryDf, cachedQuery, hlk, pushLog]
    · have hv : (runQueryDf k run1 st0).1 = .ok v := by
        simp [runQueryDf, cachedQuery, hlk]
      have ht : v = t := by
        rw [hv] at h1
        exact (Except.ok.injEq _ _).mp h1
      subst ht
      refine ⟨removeKey st0.cache k, ?_, ?_, ?_, ?_⟩
      · simp [runQueryDf, cachedQuery, hlk, pushLog]
      · simp only [keysNodup, List.map_cons, List.nodup_cons]
        constructor
        · intro hmem
          rcases List.mem_map.mp hmem with ⟨e, he, hek⟩
          exact removeKey_not_mem st0.cache k e he hek
        · exact List.Nodup.sublist ((removeKey_sublist st0.cache k).map Prod.fst) hn
      · simp only [List.length_cons]
        have := lookupC_some_length hlk
        omega
      · simp [runQueryDf, cachedQuery, hlk, pushLog]
  obtain ⟨c1, hc1, hn1, hl1, hlog1⟩ := hst1
  obtain ⟨f2, b2, g1, g2, g3, g4⟩ := lru_preserved steps (runQueryDf k run1 st0).2
    [] c1 k t (by simpa using hc1) (by rw [hc1]; exact hn1) (by rw [hc1]; exact hl1)
    (by simpa using hcount) hsteps
  have hfront2 : ∀ e ∈ f2, e.1 ≠ k := by
    intro e he hek
    have hkeys : ((runSeq steps (runQueryDf k run1 st0).2).cache.map Prod.fst).Nodup := g2
    rw [g1] at hkeys
    simp only [List.map_append, List.map_cons] at hkeys
    have hdisj := (List.nodup_append.mp hkeys).2.2
    exact hdisj (List.mem_map.mpr ⟨e, he, hek⟩) (by simp)
  have hhit : lookupC (runSeq steps (runQueryDf k run1 st0).2).cache k = some t := by
    rw [g1]
    exact lookupC_hit hfront2
  set st2 := runSeq steps (runQueryDf k run1 st0).2 with hst2
  refine ⟨?_, ?_, ?_, hlog1⟩ <;>
    simp [runQueryDf, cachedQuery, hhit, pushLog]

/-! ### C3 counterexample: eviction after 128 distinct intervening keys -/

def cexDF : DF := ⟨[], []⟩

def cexKey : QKey := ("K", [])

def cexSteps : List (QKey × Except String DF) :=
  (List.range 128).map (fun i => (("Q", [Value.int (Int.ofNat i)]), Except.ok cexDF))

/-- C3 counterexample: a query on a fresh state (one file read), then 128
queries with distinct other keys, then the original query again.  The
128-entry memo evicted the key, so the second identical call reads the
data file again — `dbReads` rises from 129 to 130 — contradicting the
claim's unconditional "without reading the data file" between any two
same-key queries. -/
theorem c3_counterexample :
    (runQueryDf cexKey (.ok cexDF)
        (runSeq cexSteps (runQueryDf cexKey (.ok cexDF) initState).2)).2.dbReads =
      (runSeq cexSteps (runQueryDf cexKey (.ok cexDF) initState).2).dbReads + 1 ∧
    (runSeq cexSteps (runQueryDf cexKey (.ok cexDF) initState).2).dbReads = 129 ∧
    (runQueryDf cexKey (.ok cexDF) initState).2.dbReads = 1 := by
  refine ⟨by decide, by decide, by decide⟩

/-- C3 witness. -/
theorem c3_witness :
    (runQueryDf cexKey (.ok cexDF)
        (runSeq [(("Q", [Value.int 0]), Except.ok cexDF)]
          (runQueryDf cexKey (.ok cexDF) initState).2)).1 = .ok cexDF ∧
    (runQueryDf cexKey (.ok cexDF)
        (runSeq [(("Q", [Value.int 0]), Except.ok cexDF)]
          (runQueryDf cexKey (.ok cexDF) initState).2)).2.dbReads =
      (runSeq [(("Q", [Value.int 0]), Except.ok cexDF)]
        (runQueryDf cexKey (.ok cexDF) initState).2).dbReads ∧
    (runQueryDf cexKey (.ok cexDF)
        (runSeq [(("Q", [Value.int 0]), Except.ok cexDF)]
          (runQueryDf cexKey (.ok cexDF) initState).2)).2.log =
      .query cexKey.1 cexKey.2 ::
        (runSeq [(("Q", [Value.int 0]), Except.ok cexDF)]
          (runQueryDf cexKey (.ok cexDF) initState).2).log ∧
    (runQueryDf cexKey (.ok cexDF) initState).2.log =
      .query cexKey.1 cexKey.2 :: initState.log :=
  c3_amended cexKey (.ok cexDF) (.ok cexDF) cexDF
    [(("Q", [Value.int 0]), Except.ok cexDF)] initState
    (by simp [keysNodup, initState]) (by decide) (by decide) (by decide) rfl

end DailyData
